import Mathlib

/-!
A shallow embedding of the function-signature and argument-type core of
`zetasql/public/function_signature.cc` (the `FunctionArgumentType` /
`FunctionSignature` validation, concrete-argument expansion, and the
serialization boundary), together with proofs about the behaviour of the
embedded operations.

Conventions:
* C++ enum values become Lean inductive types.
* `const Type*` (a pointer to a concrete SQL type, owned by a type factory)
  becomes `Option SqlType`, where `SqlType` is an opaque decidable-equality
  carrier for concrete types; `nullptr` is `none`.
* Status-returning functions become `Except e Unit` / `Except e a`, with the
  distinct `MakeSqlError` / `ZETASQL_RET_CHECK` failure sites mapped to
  distinct constructors of an error inductive.
* The protobuf wire messages become plain records; a proto field guarded by a
  `has_...` bit is an `Option`, a plain proto field with default is a plain
  field.
-/

set_option maxHeartbeats 1000000

/-- `SignatureArgumentKind` from the source: the closed set of argument kinds
dispatched on throughout `function_signature.cc`. -/
inductive SignatureArgumentKind where
  | fixed
  | any1
  | any2
  | arrayAny1
  | arrayAny2
  | protoMapAny
  | protoMapKeyAny
  | protoMapValueAny
  | protoAny
  | structAny
  | enumAny
  | relation
  | model
  | connection
  | descriptor
  | arbitrary
  | void
  | lambdaKind
deriving DecidableEq, Repr

/-- `FunctionEnums::ArgumentCardinality`. -/
inductive ArgumentCardinality where
  | required
  | optional
  | repeated
deriving DecidableEq, Repr

/-- `FunctionEnums::ProcedureArgumentMode` (`NOT_SET`, `IN`, `OUT`, `INOUT`). -/
inductive ProcedureArgumentMode where
  | notSet
  | inMode
  | outMode
  | inoutMode
deriving DecidableEq, Repr

/-- Opaque carrier for concrete SQL types (`const zetasql::Type*`).  The core
under verification treats concrete types as values with decidable equality
(`Type::Equals`) that serialize/deserialize through an external type factory;
an opaque inductive with a few sample constructors is enough. -/
inductive SqlType where
  | int64
  | stringKind
  | boolKind
  | doubleKind
  | arrayOf (elem : SqlType)
deriving DecidableEq, Repr

/-- Opaque carrier for `zetasql::Value` used as an argument default value:
the core only consults the value's type (`Value::type`), its validity bit
(`Value::is_valid`) and passes its contents through serialization, so we model
it as a record over those observations plus an opaque payload. -/
structure Value where
  vtype : SqlType
  valid : Bool
  payload : Nat
deriving DecidableEq, Repr

/-- The wire form of a `Value` (`ValueProto`): `Value::Serialize` writes the
contents but not the type; `Value::Deserialize(proto, type)` is given the type
externally.  Modelled as the value minus its type. -/
structure ValueProto where
  valid : Bool
  payload : Nat
deriving DecidableEq, Repr

/-- `Value::Serialize` at the modelling boundary: drops the type. -/
def valueSerialize (v : Value) : ValueProto :=
  { valid := v.valid, payload := v.payload }

/-- `Value::Deserialize(proto, type)` at the modelling boundary: reattaches
the externally supplied type. -/
def valueDeserialize (p : ValueProto) (t : SqlType) : Value :=
  { vtype := t, valid := p.valid, payload := p.payload }

/-- One column of a `TVFRelation` input schema (name plus type). -/
structure TVFRelationColumn where
  name : String
  ctype : SqlType
deriving DecidableEq, Repr

/-- `TVFRelation`: a relation input schema attached to a Relation-kind
argument; the core only stores it, compares it, and passes it through
serialization. -/
structure TVFRelation where
  columns : List TVFRelationColumn
deriving DecidableEq, Repr

/-- `ParseLocationRange` attached to argument-name / argument-type options;
opaque to the core, carried through serialization. -/
structure ParseLocationRange where
  startOffset : Nat
  endOffset : Nat
deriving DecidableEq, Repr

/-- `CanHaveDefaultValue` (anonymous namespace, function_signature.cc lines
56-81): true for normal expression-typed kinds, false for
relation/void/model/connection/descriptor. -/
def canHaveDefaultValue (kind : SignatureArgumentKind) : Bool :=
  match kind with
  | .fixed => true
  | .any1 => true
  | .any2 => true
  | .arrayAny1 => true
  | .arrayAny2 => true
  | .protoMapAny => true
  | .protoMapKeyAny => true
  | .protoMapValueAny => true
  | .protoAny => true
  | .structAny => true
  | .enumAny => true
  | .arbitrary => true
  | .relation => false
  | .void => false
  | .model => false
  | .connection => false
  | .descriptor => false
  | .lambdaKind => false

/-- `FunctionArgumentTypeOptions`: the per-argument constraint bag.  Field
defaults follow the default-constructed C++ object (cardinality `REQUIRED`,
booleans false, optionals absent, `extra_relation_input_columns_allowed`
true), which is also what the `FunctionArgumentTypeOptions(relation, extra)`
constructor at lines 85-90 leaves for every field it does not set. -/
structure FunctionArgumentTypeOptions where
  cardinality : ArgumentCardinality := .required
  mustBeConstant : Bool := false
  mustBeNonNull : Bool := false
  isNotAggregate : Bool := false
  mustSupportEquality : Bool := false
  mustSupportOrdering : Bool := false
  procedureArgumentMode : ProcedureArgumentMode := .notSet
  minValue : Option Int := none
  maxValue : Option Int := none
  extraRelationInputColumnsAllowed : Bool := true
  relationInputSchema : Option TVFRelation := none
  argumentName : Option String := none
  argumentNameIsMandatory : Bool := false
  argumentNameParseLocation : Option ParseLocationRange := none
  argumentTypeParseLocation : Option ParseLocationRange := none
  descriptorResolutionTableOffset : Option Int := none
  defaultValue : Option Value := none
deriving DecidableEq, Repr

/-- `FunctionArgumentType::SimpleOptions(cardinality)`: the three shared
"simple options" presets holding only a cardinality. -/
def simpleOptions (c : ArgumentCardinality) : FunctionArgumentTypeOptions :=
  { cardinality := c }

/-- `FunctionArgumentTypeOptionsProto`: wire form of the options bag.  Fields
read back through a `has_...` guard in `Deserialize` are `Option`s; fields
read unconditionally are plain. -/
structure FunctionArgumentTypeOptionsProto where
  cardinality : ArgumentCardinality := .required
  mustBeConstant : Bool := false
  mustBeNonNull : Bool := false
  isNotAggregate : Bool := false
  mustSupportEquality : Bool := false
  mustSupportOrdering : Bool := false
  procedureArgumentMode : Option ProcedureArgumentMode := none
  minValue : Option Int := none
  maxValue : Option Int := none
  extraRelationInputColumnsAllowed : Option Bool := none
  relationInputSchema : Option TVFRelation := none
  argumentName : Option String := none
  argumentNameIsMandatory : Option Bool := none
  argumentNameParseLocation : Option ParseLocationRange := none
  argumentTypeParseLocation : Option ParseLocationRange := none
  descriptorResolutionTableOffset : Option Int := none
  defaultValue : Option ValueProto := none
  defaultValueType : Option SqlType := none
deriving DecidableEq, Repr

/-- Errors raised while deserializing from the wire form (the
`InvalidArgumentErrorBuilder` / `ZETASQL_RET_CHECK` sites of the two
`Deserialize` functions). -/
inductive DeserializeError where
  | defaultNotAllowed (kind : SignatureArgumentKind)
  | defaultValueTypeWithFixedType
  | defaultValueTypeMissing
  | fixedTypeMissing
deriving DecidableEq, Repr

/-- `FunctionArgumentTypeOptions::Serialize` (lines 264-332).  `argType` is
the `arg_type` parameter (the argument's own concrete type, or null): the
default value's type is written out only when `argType` is null, because for
fixed-type arguments it is implied by the argument's type. -/
def functionArgumentTypeOptionsSerialize (argType : Option SqlType)
    (o : FunctionArgumentTypeOptions) : FunctionArgumentTypeOptionsProto :=
  { cardinality := o.cardinality
    procedureArgumentMode :=
      if o.procedureArgumentMode ≠ .notSet then some o.procedureArgumentMode else none
    mustBeConstant := o.mustBeConstant
    mustBeNonNull := o.mustBeNonNull
    isNotAggregate := o.isNotAggregate
    mustSupportEquality := o.mustSupportEquality
    mustSupportOrdering := o.mustSupportOrdering
    minValue := o.minValue
    maxValue := o.maxValue
    descriptorResolutionTableOffset := o.descriptorResolutionTableOffset
    defaultValue := o.defaultValue.map valueSerialize
    defaultValueType :=
      match o.defaultValue, argType with
      | some v, none => some v.vtype
      | _, _ => none
    extraRelationInputColumnsAllowed := some o.extraRelationInputColumnsAllowed
    relationInputSchema := o.relationInputSchema
    argumentName := o.argumentName
    argumentNameIsMandatory := if o.argumentNameIsMandatory then some true else none
    argumentNameParseLocation := o.argumentNameParseLocation
    argumentTypeParseLocation := o.argumentTypeParseLocation }

/-- A `has_field`-guarded `set_field` call of
`FunctionArgumentTypeOptions::Deserialize`: apply the setter only when the
proto field is present. -/
def applyIfSome {α : Type} (x : Option α)
    (f : α → FunctionArgumentTypeOptions → FunctionArgumentTypeOptions)
    (r : FunctionArgumentTypeOptions) : FunctionArgumentTypeOptions :=
  match x with
  | some v => f v r
  | none => r

/-- The error-free part of `FunctionArgumentTypeOptions::Deserialize` (lines
140-196): the sequence of guarded `set_...` calls (each one an `applyIfSome`)
on a default-constructed options object, including the step at lines 165-172
that, when the proto carries a `relation_input_schema`, REPLACES the options
built so far by
`FunctionArgumentTypeOptions(relation, extra_relation_input_columns_allowed)`
(a fresh object that keeps only the schema and the extra-columns flag). -/
def optionsDeserializeBase (p : FunctionArgumentTypeOptionsProto) :
    FunctionArgumentTypeOptions :=
  let o0 : FunctionArgumentTypeOptions :=
    { cardinality := p.cardinality
      mustBeConstant := p.mustBeConstant
      mustBeNonNull := p.mustBeNonNull
      isNotAggregate := p.isNotAggregate
      mustSupportEquality := p.mustSupportEquality
      mustSupportOrdering := p.mustSupportOrdering }
  let o1 := applyIfSome p.procedureArgumentMode
    (fun m r => { r with procedureArgumentMode := m }) o0
  let o2 := applyIfSome p.minValue (fun v r => { r with minValue := some v }) o1
  let o3 := applyIfSome p.maxValue (fun v r => { r with maxValue := some v }) o2
  let o4 := applyIfSome p.extraRelationInputColumnsAllowed
    (fun b r => { r with extraRelationInputColumnsAllowed := b }) o3
  let o5 := match p.relationInputSchema with
    | some rel =>
      { relationInputSchema := some rel
        extraRelationInputColumnsAllowed := o4.extraRelationInputColumnsAllowed }
    | none => o4
  let o6 := applyIfSome p.argumentName
    (fun n r => { r with argumentName := some n }) o5
  let o7 := applyIfSome p.argumentNameIsMandatory
    (fun b r => { r with argumentNameIsMandatory := b }) o6
  let o8 := applyIfSome p.argumentNameParseLocation
    (fun loc r => { r with argumentNameParseLocation := some loc }) o7
  let o9 := applyIfSome p.argumentTypeParseLocation
    (fun loc r => { r with argumentTypeParseLocation := some loc }) o8
  applyIfSome p.descriptorResolutionTableOffset
    (fun off r => { r with descriptorResolutionTableOffset := some off }) o9

/-- `FunctionArgumentTypeOptions::Deserialize` (lines 140-221): the base
field transfer followed by the guarded `default_value` handling, which
rejects a default on a kind for which `CanHaveDefaultValue` is false, insists
`default_value_type` is only present for type-less (templated) arguments, and
resolves the value against the argument type or the serialized type. -/
def functionArgumentTypeOptionsDeserialize (p : FunctionArgumentTypeOptionsProto)
    (argKind : SignatureArgumentKind) (argType : Option SqlType) :
    Except DeserializeError FunctionArgumentTypeOptions :=
  let o := optionsDeserializeBase p
  match p.defaultValue with
  | none => .ok o
  | some vp =>
    if !canHaveDefaultValue argKind then
      .error (.defaultNotAllowed argKind)
    else
      match p.defaultValueType, argType with
      | some _, some _ => .error .defaultValueTypeWithFixedType
      | some t, none => .ok { o with defaultValue := some (valueDeserialize vp t) }
      | none, some t => .ok { o with defaultValue := some (valueDeserialize vp t) }
      | none, none => .error .defaultValueTypeMissing

/- `FunctionArgumentType` and its owned lambda payload.  The C++ object is
`{kind_, type_, options_, num_occurrences_, lambda_}` where `lambda_` is a
(possibly null) shared pointer to an `ArgumentTypeLambda` holding the nested
argument types and the body type.  The nested list is a dedicated mutual list
type so that all recursion is plainly structural. -/
mutual

inductive FunctionArgumentType where
  | mk (kind : SignatureArgumentKind) (ty : Option SqlType)
       (options : FunctionArgumentTypeOptions) (numOccurrences : Int)
       (lam : LambdaOption) : FunctionArgumentType

inductive LambdaOption where
  | noLambda : LambdaOption
  | someLambda (l : ArgumentTypeLambda) : LambdaOption

inductive ArgumentTypeLambda where
  | mk (argumentTypes : FATList) (bodyType : FunctionArgumentType) : ArgumentTypeLambda

inductive FATList where
  | nil : FATList
  | cons (hd : FunctionArgumentType) (tl : FATList) : FATList

end

/-- Projection: `FunctionArgumentType::kind()`. -/
def FunctionArgumentType.kind : FunctionArgumentType → SignatureArgumentKind
  | .mk k _ _ _ _ => k

/-- Projection: `FunctionArgumentType::type()` (null = `none`). -/
def FunctionArgumentType.ty : FunctionArgumentType → Option SqlType
  | .mk _ t _ _ _ => t

/-- Projection: `FunctionArgumentType::options()`. -/
def FunctionArgumentType.options : FunctionArgumentType → FunctionArgumentTypeOptions
  | .mk _ _ o _ _ => o

/-- Projection: `FunctionArgumentType::num_occurrences()`. -/
def FunctionArgumentType.numOccurrences : FunctionArgumentType → Int
  | .mk _ _ _ n _ => n

/-- Projection: the lambda payload (`lambda_`, null = `noLambda`). -/
def FunctionArgumentType.lam : FunctionArgumentType → LambdaOption
  | .mk _ _ _ _ l => l

/-- `ArgumentTypeLambda::argument_types()`. -/
def ArgumentTypeLambda.argumentTypes : ArgumentTypeLambda → FATList
  | .mk a _ => a

/-- `ArgumentTypeLambda::body_type()`. -/
def ArgumentTypeLambda.bodyType : ArgumentTypeLambda → FunctionArgumentType
  | .mk _ b => b

/-- Convert the mutual nested-argument list to an ordinary list. -/
def FATList.toList : FATList → List FunctionArgumentType
  | .nil => []
  | .cons a tl => a :: tl.toList

/-- Build the mutual nested-argument list from an ordinary list. -/
def FATList.ofList : List FunctionArgumentType → FATList
  | [] => .nil
  | a :: tl => .cons a (FATList.ofList tl)

/-- Modelled from the spec: `cardinality()` reads the options' cardinality
(the accessor lives in the header, not in the .cc source). -/
def FunctionArgumentType.cardinality (a : FunctionArgumentType) : ArgumentCardinality :=
  a.options.cardinality

/-- Modelled from the spec: `repeated()` ⇔ cardinality is `REPEATED`. -/
def FunctionArgumentType.repeated (a : FunctionArgumentType) : Bool :=
  a.cardinality = .repeated

/-- Modelled from the spec: `optional()` ⇔ cardinality is `OPTIONAL`. -/
def FunctionArgumentType.optional (a : FunctionArgumentType) : Bool :=
  a.cardinality = .optional

/-- Modelled from the spec: `required()` ⇔ cardinality is `REQUIRED`. -/
def FunctionArgumentType.required (a : FunctionArgumentType) : Bool :=
  a.cardinality = .required

/-- Modelled from the spec: `HasDefault()` ⇔ the options carry a default
value. -/
def FunctionArgumentType.hasDefault (a : FunctionArgumentType) : Bool :=
  a.options.defaultValue.isSome

/-- Modelled from the spec: `GetDefault()` returns the options' default. -/
def FunctionArgumentType.getDefault (a : FunctionArgumentType) : Option Value :=
  a.options.defaultValue

/-- Modelled from the spec: `IsLambda()` ⇔ kind is the lambda kind. -/
def FunctionArgumentType.isLambda (a : FunctionArgumentType) : Bool :=
  a.kind = .lambdaKind

/-- Modelled from the spec: `IsVoid()` ⇔ kind is `ARG_TYPE_VOID`. -/
def FunctionArgumentType.isVoid (a : FunctionArgumentType) : Bool :=
  a.kind = .void

/-- Modelled from the spec: `IsRelation()` ⇔ kind is `ARG_TYPE_RELATION`. -/
def FunctionArgumentType.isRelation (a : FunctionArgumentType) : Bool :=
  a.kind = .relation

/-- Modelled from the spec: `IsDescriptor()` ⇔ kind is
`ARG_TYPE_DESCRIPTOR`. -/
def FunctionArgumentType.isDescriptor (a : FunctionArgumentType) : Bool :=
  a.kind = .descriptor

/-- Modelled from the spec: `IsFixedRelation()` ⇔ a Relation-kind argument
bound to an input schema ("schema-bound Relation" in the spec's templatedness
rule). -/
def FunctionArgumentType.isFixedRelation (a : FunctionArgumentType) : Bool :=
  a.kind = .relation && a.options.relationInputSchema.isSome

/- `FunctionArgumentType::IsConcrete` (lines 536-556): only
Fixed/Relation/Model/Connection/Lambda kinds can be concrete, the occurrence
count must be non-negative, and a lambda is concrete iff all nested argument
types and the body are concrete.  (A lambda-kind value with a null lambda
payload would dereference null in C++; it is unreachable for factory-built
values and modelled as not concrete.) -/
mutual

def FunctionArgumentType.isConcrete : FunctionArgumentType → Bool
  | .mk kind _ _ numOcc lam =>
    if kind ≠ .fixed ∧ kind ≠ .relation ∧ kind ≠ .model ∧ kind ≠ .connection ∧
        kind ≠ .lambdaKind then
      false
    else if numOcc < 0 then
      false
    else if kind = .lambdaKind then
      match lam with
      | .noLambda => false
      | .someLambda l => ArgumentTypeLambda.allConcrete l
    else
      true

def ArgumentTypeLambda.allConcrete : ArgumentTypeLambda → Bool
  | .mk args body => FATList.allConcrete args && FunctionArgumentType.isConcrete body

def FATList.allConcrete : FATList → Bool
  | .nil => true
  | .cons a tl => FunctionArgumentType.isConcrete a && FATList.allConcrete tl

end

/- `FunctionArgumentType::IsTemplated` (lines 558-571): a lambda is
templated iff one of its nested argument types or its body is; otherwise an
argument is templated iff it is not fixed, not a schema-bound relation and
not void.  (Null lambda payload: unreachable for factory-built values,
modelled as not templated.) -/
mutual

def FunctionArgumentType.isTemplated : FunctionArgumentType → Bool
  | .mk kind t o n lam =>
    if kind = .lambdaKind then
      match lam with
      | .noLambda => false
      | .someLambda l => ArgumentTypeLambda.anyTemplated l
    else
      kind ≠ .fixed &&
      !(FunctionArgumentType.isFixedRelation (.mk kind t o n lam)) &&
      !(FunctionArgumentType.isVoid (.mk kind t o n lam))

def ArgumentTypeLambda.anyTemplated : ArgumentTypeLambda → Bool
  | .mk args body => FATList.anyTemplated args || FunctionArgumentType.isTemplated body

def FATList.anyTemplated : FATList → Bool
  | .nil => false
  | .cons a tl => FunctionArgumentType.isTemplated a || FATList.anyTemplated tl

end

/- `FunctionArgumentType::TemplatedKindIsRelated` (lines 1050-1082):
untemplated arguments are related to nothing; a lambda's relation is the
union over its nested argument types and body; otherwise the receiver's kind
must equal the probed kind or be one of the array/element or proto-map
pairs. -/
mutual

def FunctionArgumentType.templatedKindIsRelated :
    FunctionArgumentType → SignatureArgumentKind → Bool
  | .mk kind t o n lam, probed =>
    if !(FunctionArgumentType.isTemplated (.mk kind t o n lam)) then
      false
    else if kind = probed then
      true
    else if kind = .lambdaKind then
      match lam with
      | .noLambda => false
      | .someLambda l => ArgumentTypeLambda.anyRelated l probed
    else
      (kind = .arrayAny1 && probed = .any1) ||
      (kind = .arrayAny2 && probed = .any2) ||
      (probed = .arrayAny1 && kind = .any1) ||
      (probed = .arrayAny2 && kind = .any2) ||
      (probed = .protoMapAny && kind = .protoMapKeyAny) ||
      (kind = .protoMapAny && probed = .protoMapKeyAny) ||
      (probed = .protoMapAny && kind = .protoMapValueAny) ||
      (kind = .protoMapAny && probed = .protoMapValueAny)

def ArgumentTypeLambda.anyRelated : ArgumentTypeLambda → SignatureArgumentKind → Bool
  | .mk args body, probed =>
    FATList.anyRelated args probed ||
    FunctionArgumentType.templatedKindIsRelated body probed

def FATList.anyRelated : FATList → SignatureArgumentKind → Bool
  | .nil, _ => false
  | .cons a tl, probed =>
    FunctionArgumentType.templatedKindIsRelated a probed || FATList.anyRelated tl probed

end

/-- `FunctionArgumentType::Lambda` (lines 360-371), over the mutual nested
list: builds an `ARG_TYPE_LAMBDA` argument from simple-REQUIRED options
(`FunctionArgumentType(ARG_TYPE_LAMBDA)` uses `SimpleOptions()`), then sets
`num_occurrences_ = 1` and copies the body's type into `type_`.  It performs
no validity checks. -/
def lambdaFactoryList (args : FATList) (body : FunctionArgumentType) :
    FunctionArgumentType :=
  .mk .lambdaKind body.ty (simpleOptions .required) 1 (.someLambda (.mk args body))

/-- `FunctionArgumentType::Lambda` on an ordinary argument list. -/
def lambdaFactory (args : List FunctionArgumentType) (body : FunctionArgumentType) :
    FunctionArgumentType :=
  lambdaFactoryList (FATList.ofList args) body

/-- `IsLambdaAllowedArgType` (lines 573-580): nested lambda argument/body
types are restricted to Fixed/Any1/Any2/ArrayAny1/ArrayAny2. -/
def isLambdaAllowedArgType (argType : FunctionArgumentType) : Bool :=
  let kind := argType.kind
  kind = .fixed || kind = .any1 || kind = .any2 ||
  kind = .arrayAny1 || kind = .arrayAny2

/-- Errors of `FunctionArgumentType::IsValid` and `CheckLambdaArgType`
(lines 582-675); each constructor is one distinct `MakeSqlError` /
`ZETASQL_RET_CHECK` site.  `defaultNotAllowedForKind` carries the offending
kind, matching the error message built from
`SignatureArgumentKindToString(kind())`. -/
inductive ArgumentError where
  | repeatedOccurrences (n : Int)
  | defaultOnRepeated
  | optionalOccurrences (n : Int)
  | defaultNotAllowedForKind (kind : SignatureArgumentKind)
  | defaultValueInvalid
  | defaultTypeMismatch
  | requiredOccurrences (n : Int)
  | defaultOnRequired
  | lambdaNotRequired
  | lambdaArgKindNotAllowed
  | lambdaArgOptionsNotSimple
deriving DecidableEq, Repr

/-- `FunctionArgumentType::CheckLambdaArgType` (lines 582-605): the nested
type's kind must be lambda-allowed, and its options must serialize to exactly
the same proto as the shared simple-REQUIRED options (the C++ code compares
the two serialized `FunctionArgumentTypeOptionsProto` messages with
`MessageDifferencer::Equals`; the file-descriptor-set bookkeeping of the C++
serializer is outside the model). -/
def checkLambdaArgType (argType : FunctionArgumentType) : Except ArgumentError Unit :=
  if !isLambdaAllowedArgType argType then
    .error .lambdaArgKindNotAllowed
  else if functionArgumentTypeOptionsSerialize none argType.options ≠
      functionArgumentTypeOptionsSerialize none (simpleOptions .required) then
    .error .lambdaArgOptionsNotSimple
  else
    .ok ()

/-- `CheckLambdaArgType` applied to every nested argument type in order. -/
def checkLambdaArgTypeList : FATList → Except ArgumentError Unit
  | .nil => .ok ()
  | .cons a tl =>
    match checkLambdaArgType a with
    | .error e => .error e
    | .ok () => checkLambdaArgTypeList tl

/-- The cardinality `switch` of `FunctionArgumentType::IsValid` (lines
608-665). -/
def argCardinalityCheck (a : FunctionArgumentType) : Except ArgumentError Unit :=
  match a.cardinality with
  | .repeated =>
    if a.isConcrete ∧ a.numOccurrences < 0 then
      .error (.repeatedOccurrences a.numOccurrences)
    else if a.hasDefault then
      .error .defaultOnRepeated
    else
      .ok ()
  | .optional =>
    if a.isConcrete ∧ (a.numOccurrences < 0 ∨ a.numOccurrences > 1) then
      .error (.optionalOccurrences a.numOccurrences)
    else if a.hasDefault then
      if !canHaveDefaultValue a.kind then
        .error (.defaultNotAllowedForKind a.kind)
      else if (a.getDefault.map Value.valid) = some false then
        .error .defaultValueInvalid
      else if a.ty.isSome ∧ (a.getDefault.map Value.vtype) ≠ a.ty then
        .error .defaultTypeMismatch
      else
        .ok ()
    else
      .ok ()
  | .required =>
    if a.isConcrete ∧ a.numOccurrences ≠ 1 then
      .error (.requiredOccurrences a.numOccurrences)
    else if a.hasDefault then
      .error .defaultOnRequired
    else
      .ok ()

/-- The lambda part of `FunctionArgumentType::IsValid` (lines 667-673): a
lambda-kind argument must be REQUIRED and every nested argument type and the
body type must pass `CheckLambdaArgType`.  (Null lambda payload: unreachable
for factory-built values; modelled as having no nested types to check and a
trivially passing body.) -/
def argLambdaCheck (a : FunctionArgumentType) : Except ArgumentError Unit :=
  if a.isLambda then
    if a.cardinality ≠ .required then
      .error .lambdaNotRequired
    else
      match a.lam with
      | .noLambda => .ok ()
      | .someLambda l =>
        match checkLambdaArgTypeList l.argumentTypes with
        | .error e => .error e
        | .ok () => checkLambdaArgType l.bodyType
  else
    .ok ()

/-- `FunctionArgumentType::IsValid` (lines 607-675). -/
def functionArgumentTypeIsValid (a : FunctionArgumentType) : Except ArgumentError Unit :=
  match argCardinalityCheck a with
  | .error e => .error e
  | .ok () => argLambdaCheck a

/- Wire form of `FunctionArgumentType` (`FunctionArgumentTypeProto`): kind,
occurrence count, optional type message (written only when `type()` is
non-null), options sub-message, and an optional lambda sub-message with the
nested argument descriptors and the body descriptor. -/
mutual

inductive FunctionArgumentTypeProto where
  | mk (kind : SignatureArgumentKind) (numOccurrences : Int) (ty : Option SqlType)
       (options : FunctionArgumentTypeOptionsProto) (lam : LambdaProtoOption) :
       FunctionArgumentTypeProto

inductive LambdaProtoOption where
  | noLambda : LambdaProtoOption
  | someLambda (l : FunctionArgumentTypeLambdaProto) : LambdaProtoOption

inductive FunctionArgumentTypeLambdaProto where
  | mk (arguments : FATProtoList) (body : FunctionArgumentTypeProto) :
       FunctionArgumentTypeLambdaProto

inductive FATProtoList where
  | nil : FATProtoList
  | cons (hd : FunctionArgumentTypeProto) (tl : FATProtoList) : FATProtoList

end

/- `FunctionArgumentType::Serialize` (lines 334-358): writes kind and
num_occurrences, the type when non-null, the options (passing the argument's
own type as the serializer's `arg_type`), and, for a lambda, the nested
argument and body descriptors. -/
mutual

def functionArgumentTypeSerialize : FunctionArgumentType → FunctionArgumentTypeProto
  | .mk kind ty opts numOcc lam =>
    FunctionArgumentTypeProto.mk kind numOcc ty
      (functionArgumentTypeOptionsSerialize ty opts)
      (if kind = .lambdaKind then
        match lam with
        | .noLambda => .noLambda
        | .someLambda l => .someLambda (argumentTypeLambdaSerialize l)
      else
        .noLambda)

def argumentTypeLambdaSerialize : ArgumentTypeLambda → FunctionArgumentTypeLambdaProto
  | .mk args body =>
    FunctionArgumentTypeLambdaProto.mk (fatListSerialize args)
      (functionArgumentTypeSerialize body)

def fatListSerialize : FATList → FATProtoList
  | .nil => .nil
  | .cons a tl => .cons (functionArgumentTypeSerialize a) (fatListSerialize tl)

end

/- `FunctionArgumentType::Deserialize` (lines 224-262): for a FIXED kind the
type message is deserialized (absence is a factory failure); options are
deserialized against the kind and that type; a non-null type yields a FIXED
argument, a LAMBDA kind rebuilds the argument through the `Lambda` factory
from the recursively deserialized nested descriptors (discarding the proto's
own options/occurrences for the lambda argument itself), and anything else
yields an argument of the proto's kind.  A LAMBDA proto without a lambda
sub-message reads the proto-default empty sub-message, whose default body
descriptor (FIXED kind, no type) fails the type deserialization; this is
modelled by failing with `fixedTypeMissing` directly. -/
mutual

def functionArgumentTypeDeserialize :
    FunctionArgumentTypeProto → Except DeserializeError FunctionArgumentType
  | .mk kind numOcc tyOpt optsProto lamOpt =>
    match (if kind = .fixed then
            match tyOpt with
            | some t => Except.ok (some t)
            | none => Except.error DeserializeError.fixedTypeMissing
          else
            Except.ok none : Except DeserializeError (Option SqlType)) with
    | .error e => .error e
    | .ok ty =>
      match functionArgumentTypeOptionsDeserialize optsProto kind ty with
      | .error e => .error e
      | .ok opts =>
        match ty with
        | some t => .ok (.mk .fixed (some t) opts numOcc .noLambda)
        | none =>
          if kind = .lambdaKind then
            match lamOpt with
            | .someLambda lp =>
              match argumentTypeLambdaProtoDeserialize lp with
              | .error e => .error e
              | .ok (args, body) => .ok (lambdaFactoryList args body)
            | .noLambda => .error .fixedTypeMissing
          else
            .ok (.mk kind none opts numOcc .noLambda)

def argumentTypeLambdaProtoDeserialize :
    FunctionArgumentTypeLambdaProto →
    Except DeserializeError (FATList × FunctionArgumentType)
  | .mk argProtos bodyProto =>
    match fatProtoListDeserialize argProtos with
    | .error e => .error e
    | .ok args =>
      match functionArgumentTypeDeserialize bodyProto with
      | .error e => .error e
      | .ok body => .ok (args, body)

def fatProtoListDeserialize : FATProtoList → Except DeserializeError FATList
  | .nil => .ok .nil
  | .cons p tl =>
    match functionArgumentTypeDeserialize p with
    | .error e => .error e
    | .ok a =>
      match fatProtoListDeserialize tl with
      | .error e => .error e
      | .ok tl' => .ok (.cons a tl')

end

/-- `FunctionSignatureOptions`, restricted to its serialized payload
(deprecation flag and warnings, required language features, aliasing flag);
the non-serialized constraints callback is outside the model.  Deprecation
warnings and language features are opaque identifiers. -/
structure FunctionSignatureOptions where
  isDeprecated : Bool := false
  additionalDeprecationWarnings : List Nat := []
  requiredLanguageFeatures : List Int := []
  isAliasedSignature : Bool := false
deriving DecidableEq, Repr

/-- `FunctionSignatureOptionsProto`. -/
structure FunctionSignatureOptionsProto where
  isDeprecated : Bool := false
  additionalDeprecationWarning : List Nat := []
  requiredLanguageFeature : List Int := []
  isAliasedSignature : Bool := false
deriving DecidableEq, Repr

/-- `FunctionSignatureOptions::Serialize` (lines 120-133). -/
def functionSignatureOptionsSerialize (o : FunctionSignatureOptions) :
    FunctionSignatureOptionsProto :=
  { isDeprecated := o.isDeprecated
    additionalDeprecationWarning := o.additionalDeprecationWarnings
    requiredLanguageFeature := o.requiredLanguageFeatures
    isAliasedSignature := if o.isAliasedSignature then true else false }

/-- `FunctionSignatureOptions::Deserialize` (lines 105-118). -/
def functionSignatureOptionsDeserialize (p : FunctionSignatureOptionsProto) :
    FunctionSignatureOptions :=
  { isDeprecated := p.isDeprecated
    additionalDeprecationWarnings := p.additionalDeprecationWarning
    requiredLanguageFeatures := p.requiredLanguageFeature
    isAliasedSignature := p.isAliasedSignature }

/-- `FunctionSignature::FirstRepeatedArgumentIndex` (lines 1289-1296): index
of the first repeated argument, or -1. -/
def firstRepeatedArgumentIndex (args : List FunctionArgumentType) : Int :=
  match args.findIdx? FunctionArgumentType.repeated with
  | some i => (i : Int)
  | none => -1

/-- `FunctionSignature::LastRepeatedArgumentIndex` (lines 1298-1305): index
of the last repeated argument, or -1. -/
def lastRepeatedArgumentIndex (args : List FunctionArgumentType) : Int :=
  match args.reverse.findIdx? FunctionArgumentType.repeated with
  | some i => ((args.length - 1 - i : Nat) : Int)
  | none => -1

/-- `FunctionSignature::ComputeNumRepeatedArguments` (lines 1311-1316): the
span of the repeated block, or 0 when there is none. -/
def computeNumRepeatedArguments (args : List FunctionArgumentType) : Int :=
  if firstRepeatedArgumentIndex args = -1 then 0
  else lastRepeatedArgumentIndex args - firstRepeatedArgumentIndex args + 1

/-- `FunctionSignature::ComputeNumOptionalArguments` (lines 1318-1324): the
length of the trailing run of optional arguments. -/
def computeNumOptionalArguments (args : List FunctionArgumentType) : Int :=
  ((args.reverse.takeWhile FunctionArgumentType.optional).length : Int)

/-- An arbitrary placeholder argument used only for out-of-range list reads
that cannot occur on the paths where they are used. -/
def placeholderArgument : FunctionArgumentType :=
  .mk .arbitrary none (simpleOptions .required) (-1) .noLambda

/-- `FunctionSignature::HasConcreteArguments` (lines 955-968) without the
`is_concrete_` short-circuit: every argument present in the call
(`num_occurrences > 0`) must itself be concrete. -/
def hasConcreteArgumentsList (args : List FunctionArgumentType) : Bool :=
  args.all (fun a => !(a.numOccurrences > 0) || a.isConcrete)

/-- `FunctionSignature::ComputeIsConcrete` (lines 970-983) parameterised by
the current `is_concrete_` flag that `HasConcreteArguments` short-circuits
on: all present arguments concrete, and either a relation result (TVF) or a
concrete result type. -/
def computeIsConcreteWith (oldFlag : Bool) (args : List FunctionArgumentType)
    (resultType : FunctionArgumentType) : Bool :=
  if !(oldFlag || hasConcreteArgumentsList args) then false
  else if resultType.isRelation then true
  else resultType.isConcrete

/-- The expansion loop of `FunctionSignature::ComputeConcreteArgumentTypes`
(lines 896-953), acting on the argument list: with no repeated block, the
arguments with `num_occurrences == 1`; otherwise the `num_occurrences == 1`
arguments before the block, then the whole block repeated
`arguments[first_repeated].num_occurrences()` times, then the
`num_occurrences == 1` arguments after the block. -/
def computeConcreteArgumentTypesList (args : List FunctionArgumentType) :
    List FunctionArgumentType :=
  match args.findIdx? FunctionArgumentType.repeated with
  | none => args.filter (fun a => a.numOccurrences = 1)
  | some first =>
    let last : Nat := args.length - 1 -
      ((args.reverse.findIdx? FunctionArgumentType.repeated).getD 0)
    let pre := (args.take first).filter (fun a => a.numOccurrences = 1)
    let block := (args.drop first).take (last + 1 - first)
    let numRepeatedOccurrences := (args.getD first placeholderArgument).numOccurrences
    let post := (args.drop (last + 1)).filter (fun a => a.numOccurrences = 1)
    pre ++ (List.replicate numRepeatedOccurrences.toNat block).flatten ++ post

/-- `FunctionSignature`: the argument list, result type, context id and
options, plus the fields the C++ constructor computes and stores
(`num_repeated_arguments_`, `num_optional_arguments_`, `is_concrete_`,
`concrete_arguments_`). -/
structure FunctionSignature where
  arguments : List FunctionArgumentType
  resultType : FunctionArgumentType
  contextId : Int
  options : FunctionSignatureOptions
  numRepeatedArguments : Int
  numOptionalArguments : Int
  isConcrete : Bool
  concreteArguments : List FunctionArgumentType

/-- The `FunctionSignature` constructor (lines 820-832): stores arguments,
result type, context id and options, computes the repeated/optional counts,
and runs `ComputeConcreteArgumentTypes` (lines 896-953), which sets
`is_concrete_` and fills `concrete_arguments_` only when
`HasConcreteArguments()` holds (`is_concrete_` starts false). -/
def mkFunctionSignature (resultType : FunctionArgumentType)
    (arguments : List FunctionArgumentType) (contextId : Int)
    (options : FunctionSignatureOptions) : FunctionSignature :=
  let isConcrete := computeIsConcreteWith false arguments resultType
  { arguments := arguments
    resultType := resultType
    contextId := contextId
    options := options
    numRepeatedArguments := computeNumRepeatedArguments arguments
    numOptionalArguments := computeNumOptionalArguments arguments
    isConcrete := isConcrete
    concreteArguments :=
      if isConcrete || hasConcreteArgumentsList arguments then
        computeConcreteArgumentTypesList arguments
      else
        [] }

/-- `FunctionSignature::SetConcreteResultType` (lines 1326-1332): replaces
the result type by a FIXED argument over the given type (the implicit
`FunctionArgumentType(const Type*)` constructor: simple REQUIRED options,
uninstantiated occurrence count) with `num_occurrences` then set to 1, and
recomputes `is_concrete_`; nothing else is touched. -/
def setConcreteResultType (s : FunctionSignature) (t : SqlType) : FunctionSignature :=
  let newResult : FunctionArgumentType :=
    .mk .fixed (some t) (simpleOptions .required) 1 .noLambda
  { s with
    resultType := newResult
    isConcrete := computeIsConcreteWith s.isConcrete s.arguments newResult }

/-- `FunctionSignatureProto`: result descriptor, argument descriptors,
options block, context id. -/
structure FunctionSignatureProto where
  returnType : FunctionArgumentTypeProto
  arguments : List FunctionArgumentTypeProto
  options : FunctionSignatureOptionsProto
  contextId : Int

/-- `FunctionSignature::Serialize` (lines 861-876). -/
def functionSignatureSerialize (s : FunctionSignature) : FunctionSignatureProto :=
  { returnType := functionArgumentTypeSerialize s.resultType
    arguments := s.arguments.map functionArgumentTypeSerialize
    options := functionSignatureOptionsSerialize s.options
    contextId := s.contextId }

/-- `FunctionSignature::Deserialize` (lines 834-859): deserializes the
arguments in order, the result type and the options, then rebuilds the
signature through the constructor. -/
def functionSignatureDeserialize (p : FunctionSignatureProto) :
    Except DeserializeError FunctionSignature :=
  match p.arguments.mapM functionArgumentTypeDeserialize with
  | .error e => .error e
  | .ok args =>
    match functionArgumentTypeDeserialize p.returnType with
    | .error e => .error e
    | .ok resultType =>
      .ok (mkFunctionSignature resultType args p.contextId
        (functionSignatureOptionsDeserialize p.options))

/-- Errors of `FunctionSignature::IsValid` (lines 1084-1216); one constructor
per `MakeSqlError` site, with per-argument failures wrapped in
`argumentInvalid`. -/
inductive SignatureError where
  | resultRepeatedOrOptional
  | resultTemplateMismatch
  | argumentInvalid (e : ArgumentError)
  | argumentVoid
  | optionalNotAtEnd
  | repeatedNotConsecutive
  | lambdaTemplateNotMatched
  | repeatedOccurrencesMismatch
  | repeatedNotGreaterThanOptional
  | descriptorOffsetInvalid
deriving DecidableEq, Repr

/-- The inner `j` loop of the lambda check in `FunctionSignature::IsValid`
(lines 1150-1162): returns the pair (`has_templated_args`,
`is_related_to_previous_function_arg`).  The loop `continue`s while the
nested type is untemplated, otherwise records it and stops at the first
previous argument whose kind is related. -/
def lambdaPrevCheck (prev : List FunctionArgumentType)
    (lambdaArgType : FunctionArgumentType) : Bool × Bool :=
  prev.foldl
    (fun acc argJ =>
      if acc.2 then acc
      else if !lambdaArgType.isTemplated then acc
      else (true, lambdaArgType.templatedKindIsRelated argJ.kind))
    (false, false)

/-- The lambda-related error check for the nested argument types of one
lambda argument (lines 1143-1171): error when a nested type is templated but
related to no argument occurring before the lambda. -/
def lambdaNestedArgsCheck (prev : List FunctionArgumentType) :
    FATList → Except SignatureError Unit
  | .nil => .ok ()
  | .cons lt tl =>
    let r := lambdaPrevCheck prev lt
    if r.1 ∧ !r.2 then .error .lambdaTemplateNotMatched
    else lambdaNestedArgsCheck prev tl

/-- The per-argument lambda check of `FunctionSignature::IsValid`: applies
`lambdaNestedArgsCheck` when the argument is a lambda (null payload:
unreachable, no nested types). -/
def lambdaArgsCheck (prev : List FunctionArgumentType)
    (arg : FunctionArgumentType) : Except SignatureError Unit :=
  if arg.isLambda then
    match arg.lam with
    | .noLambda => .ok ()
    | .someLambda l => lambdaNestedArgsCheck prev l.argumentTypes
  else
    .ok ()

/-- The argument scan of `FunctionSignature::IsValid` (lines 1113-1172):
validates each argument, rejects VOID kinds, enforces the optional-suffix
rule via `saw_optional`, the single-contiguous-repeated-block rule via
`in_repeated_block` / `after_repeated_block`, and runs the lambda check
against the arguments seen so far (`prev`). -/
def checkArgumentsLoop (prev : List FunctionArgumentType)
    (remaining : List FunctionArgumentType) (sawOptional : Bool)
    (inRepeatedBlock : Bool) (afterRepeatedBlock : Bool) :
    Except SignatureError Unit :=
  match remaining with
  | [] => .ok ()
  | arg :: rest =>
    match functionArgumentTypeIsValid arg with
    | .error e => .error (.argumentInvalid e)
    | .ok () =>
      if arg.isVoid then .error .argumentVoid
      else if !arg.optional ∧ sawOptional then .error .optionalNotAtEnd
      else if arg.repeated ∧ afterRepeatedBlock then .error .repeatedNotConsecutive
      else
        match lambdaArgsCheck prev arg with
        | .error e => .error e
        | .ok () =>
          checkArgumentsLoop (prev ++ [arg]) rest
            (sawOptional || arg.optional)
            (if arg.repeated then true else false)
            (if arg.repeated then afterRepeatedBlock
             else (afterRepeatedBlock || inRepeatedBlock))

/-- The repeated-block checks of `FunctionSignature::IsValid` (lines
1173-1191): every member of the block must share the first member's
occurrence count, and the stored repeated count must exceed the stored
optional count. -/
def repeatedBlockCheck (s : FunctionSignature) : Except SignatureError Unit :=
  match s.arguments.findIdx? FunctionArgumentType.repeated with
  | none => .ok ()
  | some first =>
    let last : Nat := s.arguments.length - 1 -
      ((s.arguments.reverse.findIdx? FunctionArgumentType.repeated).getD 0)
    let repeatedOccurrences :=
      (s.arguments.getD first placeholderArgument).numOccurrences
    if !(((s.arguments.drop (first + 1)).take (last - first)).all
        (fun a => a.numOccurrences = repeatedOccurrences)) then
      .error .repeatedOccurrencesMismatch
    else if s.numRepeatedArguments ≤ s.numOptionalArguments then
      .error .repeatedNotGreaterThanOptional
    else
      .ok ()

/-- The descriptor table-offset check of `FunctionSignature::IsValid` (lines
1193-1213): a Descriptor argument carrying a table offset must point at an
in-range Relation-kind argument. -/
def descriptorOffsetsCheck (allArgs : List FunctionArgumentType) :
    List FunctionArgumentType → Except SignatureError Unit
  | [] => .ok ()
  | a :: rest =>
    if a.isDescriptor then
      match a.options.descriptorResolutionTableOffset with
      | some off =>
        if off < 0 ∨ off ≥ (allArgs.length : Int) ∨
            !(allArgs.getD off.toNat placeholderArgument).isRelation then
          .error .descriptorOffsetInvalid
        else
          descriptorOffsetsCheck allArgs rest
      | none => descriptorOffsetsCheck allArgs rest
    else
      descriptorOffsetsCheck allArgs rest

/-- The result-type template check of `FunctionSignature::IsValid` (lines
1096-1111): a templated, non-Arbitrary, non-Relation result kind must be
related to some argument's kind. -/
def resultTemplateCheck (s : FunctionSignature) : Except SignatureError Unit :=
  if s.resultType.isTemplated ∧ s.resultType.kind ≠ .arbitrary ∧
      !s.resultType.isRelation then
    if s.arguments.any (fun arg => s.resultType.templatedKindIsRelated arg.kind) then
      .ok ()
    else
      .error .resultTemplateMismatch
  else
    .ok ()

/-- `FunctionSignature::IsValid` (lines 1084-1216). -/
def functionSignatureIsValid (s : FunctionSignature) : Except SignatureError Unit :=
  if s.resultType.repeated ∨ s.resultType.optional then
    .error .resultRepeatedOrOptional
  else
    match resultTemplateCheck s with
    | .error e => .error e
    | .ok () =>
      match checkArgumentsLoop [] s.arguments false false false with
      | .error e => .error e
      | .ok () =>
        match repeatedBlockCheck s with
        | .error e => .error e
        | .ok () => descriptorOffsetsCheck s.arguments s.arguments

/-- A signature-level (uninstantiated) argument of the given kind and
cardinality with simple options, as built by
`FunctionArgumentType(kind, cardinality)`. -/
def simpleArg (k : SignatureArgumentKind) (c : ArgumentCardinality) :
    FunctionArgumentType :=
  .mk k none (simpleOptions c) (-1) .noLambda

/-- A FIXED-type argument with simple options and a given occurrence count,
as built by `FunctionArgumentType(type, cardinality, num_occurrences)`. -/
def fixedArg (t : SqlType) (c : ArgumentCardinality) (occ : Int) :
    FunctionArgumentType :=
  .mk .fixed (some t) (simpleOptions c) occ .noLambda

/-- The nested-list templatedness test agrees with `List.any` over the
ordinary-list view. -/
theorem fatList_anyTemplated_ofList (l : List FunctionArgumentType) :
    FATList.anyTemplated (FATList.ofList l) =
      l.any FunctionArgumentType.isTemplated := by
  induction l with
  | nil => rfl
  | cons a tl ih => simp [FATList.ofList, FATList.anyTemplated, ih]

/-- Claim C10: every argument produced by the `Lambda` factory has
`num_occurrences = 1` (never the uninstantiated -1) and its `type_` field is
exactly the body's type, so it is null exactly when the body carries no bound
type. -/
theorem lambdaFactory_occurrences_and_type
    (args : List FunctionArgumentType) (body : FunctionArgumentType) :
    (lambdaFactory args body).numOccurrences = 1 ∧
    (lambdaFactory args body).ty = body.ty ∧
    ((lambdaFactory args body).ty = none ↔ body.ty = none) ∧
    (lambdaFactory args body).numOccurrences ≠ -1 := by
  refine ⟨rfl, rfl, Iff.rfl, ?_⟩
  simp [lambdaFactory, lambdaFactoryList, FunctionArgumentType.numOccurrences]

/-- Claim C9: `SetConcreteResultType` rebinds only the result type (to a
FIXED argument over the given type with one occurrence and simple REQUIRED
options) and recomputes the concreteness flag; the argument list, the stored
concrete-argument expansion, the stored counts, the context id and the
options are untouched. -/
theorem setConcreteResultType_frame (s : FunctionSignature) (t : SqlType) :
    (setConcreteResultType s t).arguments = s.arguments ∧
    (setConcreteResultType s t).concreteArguments = s.concreteArguments ∧
    (setConcreteResultType s t).resultType =
      .mk .fixed (some t) (simpleOptions .required) 1 .noLambda ∧
    (setConcreteResultType s t).resultType.numOccurrences = 1 ∧
    (setConcreteResultType s t).isConcrete =
      computeIsConcreteWith s.isConcrete s.arguments
        (.mk .fixed (some t) (simpleOptions .required) 1 .noLambda) ∧
    (setConcreteResultType s t).numRepeatedArguments = s.numRepeatedArguments ∧
    (setConcreteResultType s t).numOptionalArguments = s.numOptionalArguments ∧
    (setConcreteResultType s t).contextId = s.contextId ∧
    (setConcreteResultType s t).options = s.options := by
  refine ⟨rfl, rfl, rfl, rfl, rfl, rfl, rfl, rfl, rfl⟩

/-- Claim C8, counterexample: a lambda built from a FIXED argument and a
FIXED body is not fixed, not a schema-bound relation and not void, yet
`IsTemplated` returns false — so "templated iff not Fixed, not schema-bound
Relation, not Void, with no other condition, for every kind including
Lambda" fails on the lambda kind. -/
theorem isTemplated_lambda_counterexample :
    (lambdaFactory [fixedArg .int64 .required (-1)]
        (fixedArg .boolKind .required (-1))).kind ≠ .fixed ∧
    (lambdaFactory [fixedArg .int64 .required (-1)]
        (fixedArg .boolKind .required (-1))).isFixedRelation = false ∧
    (lambdaFactory [fixedArg .int64 .required (-1)]
        (fixedArg .boolKind .required (-1))).isVoid = false ∧
    (lambdaFactory [fixedArg .int64 .required (-1)]
        (fixedArg .boolKind .required (-1))).isTemplated = false := by
  refine ⟨?_, rfl, rfl, rfl⟩
  decide

/-- Claim C8, amended: for every non-lambda kind, `IsTemplated` holds iff the
argument is not fixed, not a relation bound to an input schema, and not
void; a lambda-kind argument built by the factory is templated iff some
nested argument type or the body type is templated. -/
theorem isTemplated_characterization :
    (∀ (k : SignatureArgumentKind) (t : Option SqlType)
        (o : FunctionArgumentTypeOptions) (n : Int) (lam : LambdaOption),
      k ≠ .lambdaKind →
      ((FunctionArgumentType.mk k t o n lam).isTemplated = true ↔
        (k ≠ .fixed ∧ ¬(k = .relation ∧ o.relationInputSchema.isSome) ∧
          k ≠ .void))) ∧
    (∀ (args : List FunctionArgumentType) (body : FunctionArgumentType),
      (lambdaFactory args body).isTemplated =
        (args.any FunctionArgumentType.isTemplated || body.isTemplated)) := by
  constructor
  · intro k t o n lam hk
    cases hopt : o.relationInputSchema <;> cases k <;>
      simp_all [FunctionArgumentType.isTemplated,
        FunctionArgumentType.isFixedRelation, FunctionArgumentType.isVoid,
        FunctionArgumentType.kind, FunctionArgumentType.options]
  · intro args body
    simp [lambdaFactory, lambdaFactoryList, FunctionArgumentType.isTemplated,
      ArgumentTypeLambda.anyTemplated, fatList_anyTemplated_ofList]

/-- Claim C7, counterexample: an Optional Relation-kind argument carrying a
default value but an out-of-range occurrence count (2) fails `IsValid` with
the occurrence-count error, not with the kind-specific
cannot-have-default-value error the claim promises for every such
argument. -/
theorem relationDefault_occurrence_counterexample :
    (FunctionArgumentType.mk .relation none
        { cardinality := .optional,
          defaultValue := some { vtype := .int64, valid := true, payload := 0 } }
        2 .noLambda).kind = .relation ∧
    (FunctionArgumentType.mk .relation none
        { cardinality := .optional,
          defaultValue := some { vtype := .int64, valid := true, payload := 0 } }
        2 .noLambda).optional = true ∧
    (FunctionArgumentType.mk .relation none
        { cardinality := .optional,
          defaultValue := some { vtype := .int64, valid := true, payload := 0 } }
        2 .noLambda).hasDefault = true ∧
    functionArgumentTypeIsValid (FunctionArgumentType.mk .relation none
        { cardinality := .optional,
          defaultValue := some { vtype := .int64, valid := true, payload := 0 } }
        2 .noLambda) = .error (.optionalOccurrences 2) ∧
    functionArgumentTypeIsValid (FunctionArgumentType.mk .relation none
        { cardinality := .optional,
          defaultValue := some { vtype := .int64, valid := true, payload := 0 } }
        2 .noLambda) ≠ .error (.defaultNotAllowedForKind .relation) := by
  refine ⟨rfl, rfl, rfl, rfl, ?_⟩
  intro h
  cases Except.error.inj h

/-- Claim C7, amended: `CanHaveDefaultValue(Relation)` is false; an Optional
Relation-kind argument with a default value never passes `IsValid`, and
whenever its occurrence count is consistent with OPTIONAL cardinality
(uninstantiated, or at most one occurrence) the failure is exactly the
kind-specific cannot-have-default-value error naming the Relation kind. -/
theorem relationDefault_rejected (a : FunctionArgumentType)
    (hk : a.kind = .relation) (hopt : a.optional = true)
    (hdef : a.hasDefault = true) :
    canHaveDefaultValue .relation = false ∧
    functionArgumentTypeIsValid a ≠ .ok () ∧
    (a.numOccurrences ≤ 1 →
      functionArgumentTypeIsValid a =
        .error (.defaultNotAllowedForKind .relation)) := by
  obtain ⟨k, t, o, n, lam⟩ := a
  simp only [FunctionArgumentType.kind] at hk
  subst hk
  simp only [FunctionArgumentType.optional, FunctionArgumentType.cardinality,
    FunctionArgumentType.options, decide_eq_true_eq] at hopt
  simp only [FunctionArgumentType.hasDefault, FunctionArgumentType.options,
    Option.isSome_iff_exists] at hdef
  obtain ⟨v, hv⟩ := hdef
  refine ⟨rfl, ?_, ?_⟩
  · intro hok
    have hcardok : argCardinalityCheck
        (FunctionArgumentType.mk .relation t o n lam) = .ok () := by
      revert hok
      unfold functionArgumentTypeIsValid
      cases argCardinalityCheck (FunctionArgumentType.mk .relation t o n lam) with
      | error e => intro h; exact absurd h (by simp)
      | ok u => intro h; cases u; rfl
    revert hcardok
    simp only [argCardinalityCheck, FunctionArgumentType.cardinality,
      FunctionArgumentType.options, hopt, FunctionArgumentType.hasDefault,
      FunctionArgumentType.getDefault, hv, canHaveDefaultValue,
      FunctionArgumentType.kind, Option.isSome_some]
    split <;> simp
  · intro hocc
    simp only [FunctionArgumentType.numOccurrences] at hocc
    have hnotconc : ¬((FunctionArgumentType.mk .relation t o n lam).isConcrete = true ∧
        (n < 0 ∨ n > 1)) := by
      rintro ⟨hconc, hrange⟩
      simp only [FunctionArgumentType.isConcrete] at hconc
      rcases hrange with hlt | hgt
      · simp [hlt] at hconc
      · omega
    simp [functionArgumentTypeIsValid, argCardinalityCheck,
      FunctionArgumentType.cardinality, FunctionArgumentType.options, hopt,
      FunctionArgumentType.numOccurrences, hnotconc,
      FunctionArgumentType.hasDefault, hv, FunctionArgumentType.kind,
      canHaveDefaultValue]

/-- `relationDefault_rejected` witnessed at a concrete uninstantiated
Optional Relation argument carrying an INT64 default. -/
theorem relationDefault_rejected_witness :
    canHaveDefaultValue .relation = false ∧
    functionArgumentTypeIsValid (FunctionArgumentType.mk .relation none
        { cardinality := .optional,
          defaultValue := some { vtype := .int64, valid := true, payload := 0 } }
        (-1) .noLambda) ≠ .ok () ∧
    ((FunctionArgumentType.mk .relation none
        { cardinality := .optional,
          defaultValue := some { vtype := .int64, valid := true, payload := 0 } }
        (-1) .noLambda).numOccurrences ≤ 1 →
      functionArgumentTypeIsValid (FunctionArgumentType.mk .relation none
        { cardinality := .optional,
          defaultValue := some { vtype := .int64, valid := true, payload := 0 } }
        (-1) .noLambda) = .error (.defaultNotAllowedForKind .relation)) :=
  relationDefault_rejected _ rfl rfl rfl

/-- Serialization of an options bag with no accompanying type is injective at
the simple-REQUIRED preset: the serialized proto equals the preset's proto
iff the options are the preset. -/
theorem optionsSerialize_none_eq_simple_iff (o : FunctionArgumentTypeOptions) :
    functionArgumentTypeOptionsSerialize none o =
      functionArgumentTypeOptionsSerialize none (simpleOptions .required) ↔
    o = simpleOptions .required := by
  constructor
  · intro h
    obtain ⟨c, mbc, mbn, na, mse, mso, pm, mn, mx, ex, ris, an, anm, anl, atl,
      dro, dv⟩ := o
    cases pm <;> cases anm <;> rcases dv with _ | v <;> cases ex <;>
      simp_all [functionArgumentTypeOptionsSerialize, simpleOptions]
  · intro h
    rw [h]

/-- `checkLambdaArgTypeList` over the list view accepts iff every element
passes `CheckLambdaArgType`. -/
theorem checkLambdaArgTypeList_ok_iff (l : List FunctionArgumentType) :
    checkLambdaArgTypeList (FATList.ofList l) = .ok () ↔
      ∀ a ∈ l, checkLambdaArgType a = .ok () := by
  induction l with
  | nil => simp [FATList.ofList, checkLambdaArgTypeList]
  | cons a tl ih =>
    simp only [FATList.ofList, checkLambdaArgTypeList]
    constructor
    · intro h
      rcases hc : checkLambdaArgType a with e | u
      · rw [hc] at h; cases h
      · cases u
        rw [hc] at h
        intro x hx
        rcases List.mem_cons.mp hx with hx1 | hx1
        · rw [hx1]; exact hc
        · exact (ih.mp h) x hx1
    · intro h
      rw [h a (by simp)]
      exact ih.mpr (fun x hx => h x (by simp [hx]))

/-- Claim C4, counterexample: the `Lambda` factory applied to a nested
argument type outside the allowed shape (a PROTO-kind argument) still
constructs a lambda argument — construction itself is never rejected; the
rejection only happens later, in `FunctionArgumentType::IsValid` via
`CheckLambdaArgType`. -/
theorem lambdaFactory_no_rejection_counterexample :
    (lambdaFactory [simpleArg .protoAny .required]
        (fixedArg .boolKind .required (-1))).kind = .lambdaKind ∧
    (lambdaFactory [simpleArg .protoAny .required]
        (fixedArg .boolKind .required (-1))).lam =
      .someLambda (.mk (.cons (simpleArg .protoAny .required) .nil)
        (fixedArg .boolKind .required (-1))) ∧
    checkLambdaArgType (simpleArg .protoAny .required) =
      .error .lambdaArgKindNotAllowed ∧
    functionArgumentTypeIsValid (lambdaFactory [simpleArg .protoAny .required]
        (fixedArg .boolKind .required (-1))) =
      .error .lambdaArgKindNotAllowed :=
  ⟨rfl, rfl, rfl, rfl⟩

/-- Claim C4, amended: `Lambda(argument_types, body_type)` performs no check;
it is `IsValid` on the constructed lambda argument that succeeds iff every
nested argument type and the body type pass `CheckLambdaArgType`, and a type
passes `CheckLambdaArgType` iff its kind is in
{Fixed, Any1, Any2, ArrayAny1, ArrayAny2} and its options are exactly the
default simple-REQUIRED options. -/
theorem lambda_validation_contract :
    (∀ (args : List FunctionArgumentType) (body : FunctionArgumentType),
      functionArgumentTypeIsValid (lambdaFactory args body) = .ok () ↔
        ((∀ a ∈ args, checkLambdaArgType a = .ok ()) ∧
          checkLambdaArgType body = .ok ())) ∧
    (∀ a : FunctionArgumentType,
      checkLambdaArgType a = .ok () ↔
        (isLambdaAllowedArgType a = true ∧ a.options = simpleOptions .required)) := by
  constructor
  · intro args body
    have hcard : argCardinalityCheck (lambdaFactory args body) = .ok () := by
      simp [argCardinalityCheck, lambdaFactory, lambdaFactoryList,
        FunctionArgumentType.cardinality, FunctionArgumentType.options,
        simpleOptions, FunctionArgumentType.numOccurrences,
        FunctionArgumentType.hasDefault]
    have hred : argLambdaCheck (lambdaFactory args body) =
        (match checkLambdaArgTypeList (FATList.ofList args) with
          | .error e => .error e
          | .ok _ => checkLambdaArgType body) := rfl
    simp only [functionArgumentTypeIsValid, hcard]
    rw [hred]
    constructor
    · intro h
      rcases hl : checkLambdaArgTypeList (FATList.ofList args) with e | u
      · rw [hl] at h; cases h
      · cases u
        rw [hl] at h
        exact ⟨(checkLambdaArgTypeList_ok_iff args).mp hl, h⟩
    · intro h
      obtain ⟨h1, h2⟩ := h
      rw [(checkLambdaArgTypeList_ok_iff args).mpr h1, h2]
  · intro a
    simp only [checkLambdaArgType]
    constructor
    · intro h
      by_cases hk : isLambdaAllowedArgType a = true
      · refine ⟨hk, ?_⟩
        rw [if_neg (by simp [hk])] at h
        by_cases ho : functionArgumentTypeOptionsSerialize none a.options =
            functionArgumentTypeOptionsSerialize none (simpleOptions .required)
        · exact (optionsSerialize_none_eq_simple_iff a.options).mp ho
        · rw [if_pos ho] at h; cases h
      · rw [if_pos (by simp [hk])] at h; cases h
    · intro ⟨h1, h2⟩
      rw [if_neg (by simp [h1]), if_neg (by simp [h2])]

/-- The nested-lambda relatedness check can only fail with the
lambda-template error. -/
theorem lambdaNestedArgsCheck_error (prev : List FunctionArgumentType) :
    (l : FATList) → ∀ e, lambdaNestedArgsCheck prev l = .error e →
      e = .lambdaTemplateNotMatched
  | .nil, e, h => by cases h
  | .cons a tl, e, h => by
    revert h
    simp only [lambdaNestedArgsCheck]
    split
    · intro h
      exact (Except.error.inj h).symm
    · intro h
      exact lambdaNestedArgsCheck_error prev tl e h

/-- The per-argument lambda check can only fail with the lambda-template
error. -/
theorem lambdaArgsCheck_error (prev : List FunctionArgumentType)
    (arg : FunctionArgumentType) (e : SignatureError)
    (h : lambdaArgsCheck prev arg = .error e) : e = .lambdaTemplateNotMatched := by
  revert h
  simp only [lambdaArgsCheck]
  split
  · split
    · intro h; cases h
    · intro h
      exact lambdaNestedArgsCheck_error prev _ e h
  · intro h; cases h

/-- The argument scan never fails with the result-template error. -/
theorem checkArgumentsLoop_ne_mismatch :
    (rem : List FunctionArgumentType) → ∀ (prev : List FunctionArgumentType)
      (s i a : Bool), checkArgumentsLoop prev rem s i a ≠
        .error .resultTemplateMismatch
  | [], _, _, _, _ => by simp [checkArgumentsLoop]
  | arg :: rest, prev, s, i, a => by
    simp only [checkArgumentsLoop]
    split
    · intro h; cases Except.error.inj h
    · split
      · intro h; cases Except.error.inj h
      · split
        · intro h; cases Except.error.inj h
        · split
          · intro h; cases Except.error.inj h
          · split
            · next e heq =>
              intro h
              have := lambdaArgsCheck_error prev arg e heq
              subst this
              cases Except.error.inj h
            · exact checkArgumentsLoop_ne_mismatch rest _ _ _ _

/-- The repeated-block check never fails with the result-template error. -/
theorem repeatedBlockCheck_ne_mismatch (s : FunctionSignature) :
    repeatedBlockCheck s ≠ .error .resultTemplateMismatch := by
  simp only [repeatedBlockCheck]
  split
  · simp
  · split
    · simp
    · split <;> simp

/-- The descriptor-offset check never fails with the result-template
error. -/
theorem descriptorOffsetsCheck_ne_mismatch (allArgs : List FunctionArgumentType) :
    (l : List FunctionArgumentType) →
      descriptorOffsetsCheck allArgs l ≠ .error .resultTemplateMismatch
  | [] => by simp [descriptorOffsetsCheck]
  | b :: rest => by
    simp only [descriptorOffsetsCheck]
    split
    · split
      · split
        · simp
        · exact descriptorOffsetsCheck_ne_mismatch allArgs rest
      · exact descriptorOffsetsCheck_ne_mismatch allArgs rest
    · exact descriptorOffsetsCheck_ne_mismatch allArgs rest

/-- When the result-cardinality gate passes, a failing result-template check
is the verdict of the whole `IsValid`. -/
theorem functionSignatureIsValid_of_template_error (s : FunctionSignature)
    (hne : ¬(s.resultType.repeated = true ∨ s.resultType.optional = true))
    (e : SignatureError) (h : resultTemplateCheck s = .error e) :
    functionSignatureIsValid s = .error e := by
  simp only [functionSignatureIsValid, if_neg hne, h]

/-- When the result-template check passes, the whole `IsValid` can never
report the result-template error. -/
theorem functionSignatureIsValid_ne_mismatch_of_template_ok
    (s : FunctionSignature)
    (hne : ¬(s.resultType.repeated = true ∨ s.resultType.optional = true))
    (h : resultTemplateCheck s = .ok ()) :
    functionSignatureIsValid s ≠ .error .resultTemplateMismatch := by
  simp only [functionSignatureIsValid, if_neg hne, h]
  intro hcontra
  rcases hcl : checkArgumentsLoop [] s.arguments false false false with e | u
  · rw [hcl] at hcontra
    rw [Except.error.inj hcontra] at hcl
    exact checkArgumentsLoop_ne_mismatch s.arguments [] false false false hcl
  · cases u
    rw [hcl] at hcontra
    rcases hrb : repeatedBlockCheck s with e | u
    · rw [hrb] at hcontra
      rw [Except.error.inj hcontra] at hrb
      exact repeatedBlockCheck_ne_mismatch s hrb
    · cases u
      rw [hrb] at hcontra
      exact descriptorOffsetsCheck_ne_mismatch s.arguments s.arguments hcontra

/-- Claim C3, counterexample: a signature whose result type is a REPEATED
templated `ANY_1` (not Arbitrary, not a Relation) with no argument related to
it is rejected with the result-cardinality error, not with the
result-template error the claim promises. -/
theorem resultTemplate_repeated_result_counterexample :
    (simpleArg .any1 .repeated).isTemplated = true ∧
    (simpleArg .any1 .repeated).kind ≠ .arbitrary ∧
    (simpleArg .any1 .repeated).isRelation = false ∧
    (∀ a ∈ ([] : List FunctionArgumentType),
      (simpleArg .any1 .repeated).templatedKindIsRelated a.kind = false) ∧
    functionSignatureIsValid (mkFunctionSignature (simpleArg .any1 .repeated)
      [] 0 {}) = .error .resultRepeatedOrOptional ∧
    functionSignatureIsValid (mkFunctionSignature (simpleArg .any1 .repeated)
      [] 0 {}) ≠ .error .resultTemplateMismatch := by
  refine ⟨rfl, by decide, rfl, by simp, rfl, ?_⟩
  intro h
  cases Except.error.inj h

/-- Claim C3, amended: for a signature whose result type has REQUIRED
cardinality and is templated, not Arbitrary and not a Relation, `IsValid`
returns the result-template error iff no argument's kind is related to the
result's kind per `TemplatedKindIsRelated`; in particular
`f(REPEATED ANY_1 x) -> ARRAY<ANY_1>` is fully valid while
`f(REPEATED ANY_1 x) -> ANY_2` fails with exactly that error. -/
theorem resultTemplate_error_characterization :
    (∀ (result : FunctionArgumentType) (args : List FunctionArgumentType)
        (cid : Int) (opts : FunctionSignatureOptions),
      result.repeated = false → result.optional = false →
      result.isTemplated = true → result.kind ≠ .arbitrary →
      result.isRelation = false →
      (functionSignatureIsValid (mkFunctionSignature result args cid opts) =
          .error .resultTemplateMismatch ↔
        ∀ a ∈ args, result.templatedKindIsRelated a.kind = false)) ∧
    functionSignatureIsValid (mkFunctionSignature (simpleArg .arrayAny1 .required)
      [simpleArg .any1 .repeated] 0 {}) = .ok () ∧
    functionSignatureIsValid (mkFunctionSignature (simpleArg .any2 .required)
      [simpleArg .any1 .repeated] 0 {}) = .error .resultTemplateMismatch := by
  refine ⟨?_, rfl, rfl⟩
  intro result args cid opts hrep hopt htempl harb hrel
  have hres : (mkFunctionSignature result args cid opts).resultType = result := rfl
  have hargs : (mkFunctionSignature result args cid opts).arguments = args := rfl
  have hne : ¬((mkFunctionSignature result args cid opts).resultType.repeated = true ∨
      (mkFunctionSignature result args cid opts).resultType.optional = true) := by
    rw [hres]
    simp [hrep, hopt]
  have hrtc : resultTemplateCheck (mkFunctionSignature result args cid opts) =
      (if args.any (fun arg => result.templatedKindIsRelated arg.kind) then
        Except.ok () else .error .resultTemplateMismatch) := by
    simp only [resultTemplateCheck, hres, hargs]
    rw [if_pos ⟨htempl, harb, by simp [hrel]⟩]
  by_cases hany : args.any (fun arg => result.templatedKindIsRelated arg.kind) = true
  · rw [if_pos hany] at hrtc
    constructor
    · intro h
      exact absurd h
        (functionSignatureIsValid_ne_mismatch_of_template_ok _ hne hrtc)
    · intro hforall
      exfalso
      rcases List.any_eq_true.mp hany with ⟨b, hb, hbrelated⟩
      rw [hforall b hb] at hbrelated
      cases hbrelated
  · rw [if_neg hany] at hrtc
    constructor
    · intro _
      intro b hb
      rcases hval : result.templatedKindIsRelated b.kind with _ | _
      · rfl
      · exact absurd (List.any_eq_true.mpr ⟨b, hb, hval⟩) hany
    · intro _
      exact functionSignatureIsValid_of_template_error _ hne _ hrtc

/-- `resultTemplate_error_characterization` witnessed at
`f(REPEATED ANY_1 x) -> ANY_2`: the template error is reported and indeed no
argument kind is related to `ANY_2`. -/
theorem resultTemplate_error_characterization_witness :
    (simpleArg .any2 .required).repeated = false ∧
    (simpleArg .any2 .required).optional = false ∧
    (simpleArg .any2 .required).isTemplated = true ∧
    (simpleArg .any2 .required).kind ≠ .arbitrary ∧
    (simpleArg .any2 .required).isRelation = false ∧
    (functionSignatureIsValid (mkFunctionSignature (simpleArg .any2 .required)
        [simpleArg .any1 .repeated] 0 {}) = .error .resultTemplateMismatch ↔
      ∀ a ∈ [simpleArg .any1 .repeated],
        (simpleArg .any2 .required).templatedKindIsRelated a.kind = false) :=
  ⟨rfl, rfl, rfl, by decide, rfl,
    resultTemplate_error_characterization.1 (simpleArg .any2 .required)
      [simpleArg .any1 .repeated] 0 {} rfl rfl rfl (by decide) rfl⟩

/-- A signature accepted by `IsValid` passed the repeated-block check. -/
theorem repeatedBlockCheck_ok_of_isValid (s : FunctionSignature)
    (h : functionSignatureIsValid s = .ok ()) : repeatedBlockCheck s = .ok () := by
  revert h
  simp only [functionSignatureIsValid]
  split
  · intro h; cases h
  · split
    · intro h; cases h
    · split
      · intro h; cases h
      · split
        · intro h; cases h
        · intros
          assumption

/-- Claim C6: a signature containing a repeated block whose repeated count
does not exceed the trailing-optional count is always rejected by
`IsValid`. -/
theorem repeatedBound_rejection (result : FunctionArgumentType)
    (args : List FunctionArgumentType) (cid : Int)
    (opts : FunctionSignatureOptions)
    (hrep : firstRepeatedArgumentIndex args ≠ -1)
    (hbound : computeNumRepeatedArguments args ≤ computeNumOptionalArguments args) :
    functionSignatureIsValid (mkFunctionSignature result args cid opts) ≠
      .ok () := by
  intro hok
  have hrb := repeatedBlockCheck_ok_of_isValid _ hok
  have hnr : (mkFunctionSignature result args cid opts).numRepeatedArguments =
      computeNumRepeatedArguments args := rfl
  have hno : (mkFunctionSignature result args cid opts).numOptionalArguments =
      computeNumOptionalArguments args := rfl
  have hargs : (mkFunctionSignature result args cid opts).arguments = args := rfl
  revert hrb
  simp only [repeatedBlockCheck, hargs, hnr, hno]
  split
  · next heq =>
    exact fun _ => hrep (by simp [firstRepeatedArgumentIndex, heq])
  · next i heq =>
    intro h
    split at h <;> cases h

/-- `repeatedBound_rejection` witnessed at a one-repeated/one-optional
signature (repeated count 1 is not greater than optional count 1). -/
theorem repeatedBound_rejection_witness :
    firstRepeatedArgumentIndex
      [fixedArg .int64 .repeated (-1), fixedArg .int64 .optional (-1)] ≠ -1 ∧
    computeNumRepeatedArguments
      [fixedArg .int64 .repeated (-1), fixedArg .int64 .optional (-1)] ≤
      computeNumOptionalArguments
        [fixedArg .int64 .repeated (-1), fixedArg .int64 .optional (-1)] ∧
    functionSignatureIsValid (mkFunctionSignature (fixedArg .int64 .required (-1))
      [fixedArg .int64 .repeated (-1), fixedArg .int64 .optional (-1)] 0 {}) ≠
      .ok () :=
  ⟨by decide, by decide,
    repeatedBound_rejection (fixedArg .int64 .required (-1))
      [fixedArg .int64 .repeated (-1), fixedArg .int64 .optional (-1)] 0 {}
      (by decide) (by decide)⟩

/-- Spec-side invariant: once an Optional argument is seen, every later
argument is Optional (everything after the first Optional is Optional). -/
def optionalSuffixInvariant (cs : List ArgumentCardinality) : Bool :=
  (cs.dropWhile (fun c => c ≠ .optional)).all (fun c => c = .optional)

/-- Spec-side invariant: the Repeated arguments form one contiguous run
(after the first maximal run of Repeated entries, no Repeated entry
remains). -/
def singleRepeatedRunInvariant (cs : List ArgumentCardinality) : Bool :=
  (((cs.dropWhile (fun c => c ≠ .repeated)).dropWhile
      (fun c => c = .repeated)).all (fun c => c ≠ .repeated))

/-- The `saw_optional` state machine of the argument scan, restricted to
cardinalities. -/
def suffixFrom (sawOptional : Bool) : List ArgumentCardinality → Bool
  | [] => true
  | c :: rest =>
    if c = .optional then suffixFrom true rest
    else if sawOptional then false
    else suffixFrom false rest

/-- The `in_repeated_block` / `after_repeated_block` state machine of the
argument scan, restricted to cardinalities. -/
def runFrom (inRep afterRep : Bool) : List ArgumentCardinality → Bool
  | [] => true
  | c :: rest =>
    if c = .repeated then
      if afterRep then false else runFrom true afterRep rest
    else runFrom false (afterRep || inRep) rest

theorem suffixFrom_true (cs : List ArgumentCardinality) :
    suffixFrom true cs = cs.all (fun c => c = .optional) := by
  induction cs with
  | nil => rfl
  | cons c rest ih =>
    by_cases hc : c = ArgumentCardinality.optional
    · simp [suffixFrom, hc, ih]
    · simp [suffixFrom, hc]

theorem suffixFrom_spec (cs : List ArgumentCardinality) :
    suffixFrom false cs = optionalSuffixInvariant cs := by
  induction cs with
  | nil => rfl
  | cons c rest ih =>
    by_cases hc : c = ArgumentCardinality.optional
    · simp [suffixFrom, optionalSuffixInvariant, hc, List.dropWhile,
        suffixFrom_true]
    · simpa [suffixFrom, optionalSuffixInvariant, hc, List.dropWhile] using ih

theorem runFrom_after (i : Bool) (cs : List ArgumentCardinality) :
    runFrom i true cs = cs.all (fun c => c ≠ .repeated) := by
  induction cs generalizing i with
  | nil => rfl
  | cons c rest ih =>
    by_cases hc : c = ArgumentCardinality.repeated
    · simp [runFrom, hc]
    · simp [runFrom, hc, ih]

theorem runFrom_inRun (cs : List ArgumentCardinality) :
    runFrom true false cs =
      ((cs.dropWhile (fun c => c = .repeated)).all (fun c => c ≠ .repeated)) := by
  induction cs with
  | nil => rfl
  | cons c rest ih =>
    by_cases hc : c = ArgumentCardinality.repeated
    · simp [runFrom, hc, List.dropWhile, ih]
    · simp [runFrom, hc, List.dropWhile, runFrom_after]

theorem runFrom_spec (cs : List ArgumentCardinality) :
    runFrom false false cs = singleRepeatedRunInvariant cs := by
  induction cs with
  | nil => rfl
  | cons c rest ih =>
    by_cases hc : c = ArgumentCardinality.repeated
    · simp [runFrom, singleRepeatedRunInvariant, hc, List.dropWhile,
        runFrom_inRun]
    · simpa [runFrom, singleRepeatedRunInvariant, hc, List.dropWhile] using ih

/-- `lambdaArgsCheck` is trivial for non-lambda arguments. -/
theorem lambdaArgsCheck_of_not_lambda (prev : List FunctionArgumentType)
    (x : FunctionArgumentType) (h : x.isLambda = false) :
    lambdaArgsCheck prev x = .ok () := by
  simp [lambdaArgsCheck, h]

/-- On a list of valid, non-void, non-lambda arguments the argument scan
accepts iff both cardinality state machines accept. -/
theorem checkArgumentsLoop_cards :
    (args : List FunctionArgumentType) →
    ∀ (prev : List FunctionArgumentType) (s i a : Bool),
      (∀ x ∈ args, functionArgumentTypeIsValid x = .ok ()) →
      (∀ x ∈ args, x.isVoid = false) →
      (∀ x ∈ args, x.isLambda = false) →
      (checkArgumentsLoop prev args s i a = .ok () ↔
        (suffixFrom s (args.map FunctionArgumentType.cardinality) = true ∧
          runFrom i a (args.map FunctionArgumentType.cardinality) = true))
  | [], prev, s, i, a, _, _, _ => by
    simp [checkArgumentsLoop, suffixFrom, runFrom]
  | x :: rest, prev, s, i, a, hvalid, hnv, hnl => by
    have hv := hvalid x (by simp)
    have hnvx := hnv x (by simp)
    have hnlx := hnl x (by simp)
    have hlam := lambdaArgsCheck_of_not_lambda prev x hnlx
    have ih := fun (p : List FunctionArgumentType) (s' i' a' : Bool) =>
      checkArgumentsLoop_cards rest p s' i' a'
        (fun y hy => hvalid y (by simp [hy]))
        (fun y hy => hnv y (by simp [hy]))
        (fun y hy => hnl y (by simp [hy]))
    simp only [checkArgumentsLoop, hv, hnvx, hlam, List.map_cons]
    rcases hcard : x.cardinality with _ | _ | _ <;>
      simp only [FunctionArgumentType.optional, FunctionArgumentType.repeated,
        hcard, suffixFrom, runFrom] <;>
      cases s <;> cases a <;> cases i <;>
      simp [ih, suffixFrom, runFrom]

/-- With a passing result-cardinality gate, `IsValid` accepts iff each of its
four stages accepts. -/
theorem functionSignatureIsValid_ok_iff (s : FunctionSignature)
    (hne : ¬(s.resultType.repeated = true ∨ s.resultType.optional = true)) :
    functionSignatureIsValid s = .ok () ↔
      (resultTemplateCheck s = .ok () ∧
        checkArgumentsLoop [] s.arguments false false false = .ok () ∧
        repeatedBlockCheck s = .ok () ∧
        descriptorOffsetsCheck s.arguments s.arguments = .ok ()) := by
  simp only [functionSignatureIsValid, if_neg hne]
  constructor
  · intro h
    rcases h1 : resultTemplateCheck s with e | u
    · rw [h1] at h; cases h
    · cases u
      rw [h1] at h
      rcases h2 : checkArgumentsLoop [] s.arguments false false false with e | u
      · rw [h2] at h; cases h
      · cases u
        rw [h2] at h
        rcases h3 : repeatedBlockCheck s with e | u
        · rw [h3] at h; cases h
        · cases u
          rw [h3] at h
          exact ⟨rfl, rfl, rfl, h⟩
  · rintro ⟨h1, h2, h3, h4⟩
    rw [h1, h2, h3]
    exact h4

/-- An accepted argument scan contains no VOID argument. -/
theorem checkArgumentsLoop_ok_no_void :
    (args : List FunctionArgumentType) →
    ∀ (prev : List FunctionArgumentType) (s i a : Bool),
      checkArgumentsLoop prev args s i a = .ok () →
      ∀ x ∈ args, x.isVoid = false
  | [], _, _, _, _ => by
    intro _ x hx
    cases hx
  | y :: rest, prev, s, i, a => by
    intro h x hx
    revert h
    simp only [checkArgumentsLoop]
    split
    · intro h; cases h
    · split
      · intro h; cases h
      · next hnv =>
        split
        · intro h; cases h
        · split
          · intro h; cases h
          · split
            · intro h; cases h
            · intro h
              rcases List.mem_cons.mp hx with h1 | h1
              · subst h1
                simpa using hnv
              · exact checkArgumentsLoop_ok_no_void rest _ _ _ _ h x h1

/-- The descriptor-offset check is trivial on descriptor-free argument
lists. -/
theorem descriptorOffsetsCheck_of_no_descriptor
    (allArgs : List FunctionArgumentType) :
    (l : List FunctionArgumentType) → (∀ x ∈ l, x.isDescriptor = false) →
      descriptorOffsetsCheck allArgs l = .ok ()
  | [], _ => rfl
  | y :: rest, h => by
    have hy := h y (by simp)
    simp only [descriptorOffsetsCheck, hy]
    exact descriptorOffsetsCheck_of_no_descriptor allArgs rest
      (fun x hx => h x (by simp [hx]))

/-- The test-harness argument list for a cardinality sequence: one
uninstantiated fixed INT64 argument per cardinality. -/
def cardsToArgs (cs : List ArgumentCardinality) : List FunctionArgumentType :=
  cs.map (fun c => fixedArg .int64 c (-1))

/-- The test-harness signature for a cardinality sequence: fixed INT64
required result over `cardsToArgs`. -/
def sigOfCards (cs : List ArgumentCardinality) : FunctionSignature :=
  mkFunctionSignature (fixedArg .int64 .required (-1)) (cardsToArgs cs) 0 {}

theorem cardsToArgs_cardinalities (cs : List ArgumentCardinality) :
    (cardsToArgs cs).map FunctionArgumentType.cardinality = cs := by
  induction cs with
  | nil => rfl
  | cons c rest ih =>
    show FunctionArgumentType.cardinality (fixedArg .int64 c (-1)) ::
        (cardsToArgs rest).map FunctionArgumentType.cardinality = c :: rest
    rw [ih]
    rfl

theorem cardsToArgs_valid (cs : List ArgumentCardinality) :
    ∀ x ∈ cardsToArgs cs, functionArgumentTypeIsValid x = .ok () := by
  intro x hx
  rcases List.mem_map.mp hx with ⟨c, _, hc⟩
  subst hc
  cases c <;> rfl

theorem cardsToArgs_no_void (cs : List ArgumentCardinality) :
    ∀ x ∈ cardsToArgs cs, x.isVoid = false := by
  intro x hx
  rcases List.mem_map.mp hx with ⟨c, _, hc⟩
  subst hc
  rfl

theorem cardsToArgs_no_lambda (cs : List ArgumentCardinality) :
    ∀ x ∈ cardsToArgs cs, x.isLambda = false := by
  intro x hx
  rcases List.mem_map.mp hx with ⟨c, _, hc⟩
  subst hc
  rfl

theorem cardsToArgs_no_descriptor (cs : List ArgumentCardinality) :
    ∀ x ∈ cardsToArgs cs, x.isDescriptor = false := by
  intro x hx
  rcases List.mem_map.mp hx with ⟨c, _, hc⟩
  subst hc
  rfl

theorem cardsToArgs_occurrences (cs : List ArgumentCardinality) :
    ∀ x ∈ cardsToArgs cs, x.numOccurrences = -1 := by
  intro x hx
  rcases List.mem_map.mp hx with ⟨c, _, hc⟩
  subst hc
  rfl

/-- `getD` over a list of uniformly uninstantiated arguments (with the
uninstantiated placeholder default) always reads occurrence count -1. -/
theorem getD_occurrences_minus1 :
    (l : List FunctionArgumentType) → (∀ x ∈ l, x.numOccurrences = -1) →
      ∀ n : Nat, ((l.getD n placeholderArgument).numOccurrences : Int) = -1
  | [], _, n => rfl
  | y :: tl, h, 0 => h y (by simp)
  | y :: tl, h, n + 1 =>
    getD_occurrences_minus1 tl (fun x hx => h x (by simp [hx])) n

/-- Any drop/take slice of a uniformly uninstantiated argument list passes
the repeated-block occurrence-uniformity test. -/
theorem uniform_slice (l : List FunctionArgumentType)
    (h : ∀ x ∈ l, x.numOccurrences = -1) (k m j : Nat) :
    ((l.drop k).take m).all
      (fun a => a.numOccurrences =
        (l.getD j placeholderArgument).numOccurrences) = true := by
  apply List.all_eq_true.mpr
  intro a ha
  have hmem : a ∈ l :=
    (List.drop_sublist k l).subset ((List.take_sublist m (l.drop k)).subset ha)
  simp only [decide_eq_true_eq, h a hmem]
  exact (getD_occurrences_minus1 l h j).symm

/-- The repeated-block check accepts the cardinality-harness signature
whenever the repeated/optional bound holds. -/
theorem repeatedBlockCheck_sigOfCards (cs : List ArgumentCardinality)
    (hbound : firstRepeatedArgumentIndex (cardsToArgs cs) ≠ -1 →
      computeNumOptionalArguments (cardsToArgs cs) <
        computeNumRepeatedArguments (cardsToArgs cs)) :
    repeatedBlockCheck (sigOfCards cs) = .ok () := by
  have hargs : (sigOfCards cs).arguments = cardsToArgs cs := rfl
  have hnr : (sigOfCards cs).numRepeatedArguments =
      computeNumRepeatedArguments (cardsToArgs cs) := rfl
  have hno : (sigOfCards cs).numOptionalArguments =
      computeNumOptionalArguments (cardsToArgs cs) := rfl
  simp only [repeatedBlockCheck, hargs, hnr, hno]
  split
  · rfl
  · next first heq =>
    have hb := hbound (by simp [firstRepeatedArgumentIndex, heq])
    rw [if_neg ?hu, if_neg (by omega)]
    case hu =>
      simp only [Bool.not_eq_true, Bool.not_eq_eq_eq_not, Bool.not_true,
        Bool.not_eq_false]
      exact uniform_slice (cardsToArgs cs) (cardsToArgs_occurrences cs) _ _ _

/-- Claim C2: `IsValid` rejects any signature containing a VOID argument;
and over arbitrary cardinality sequences (realised as uninstantiated fixed
INT64 arguments, all other validity conditions holding, in particular the
repeated-greater-than-optional bound when a repeated block exists) `IsValid`
accepts iff the optional-suffix invariant and the single-contiguous
repeated-run invariant both hold. -/
theorem cardinality_invariants_characterization :
    (∀ s : FunctionSignature, functionSignatureIsValid s = .ok () →
      ∀ x ∈ s.arguments, x.isVoid = false) ∧
    (∀ cs : List ArgumentCardinality,
      (firstRepeatedArgumentIndex (cardsToArgs cs) ≠ -1 →
        computeNumOptionalArguments (cardsToArgs cs) <
          computeNumRepeatedArguments (cardsToArgs cs)) →
      (functionSignatureIsValid (sigOfCards cs) = .ok () ↔
        (optionalSuffixInvariant cs = true ∧
          singleRepeatedRunInvariant cs = true))) := by
  constructor
  · intro s h x hx
    by_cases hne : (s.resultType.repeated = true ∨ s.resultType.optional = true)
    · simp only [functionSignatureIsValid, if_pos hne] at h
      cases h
    · have hall := (functionSignatureIsValid_ok_iff s hne).mp h
      exact checkArgumentsLoop_ok_no_void s.arguments [] false false false
        hall.2.1 x hx
  · intro cs hbound
    have hres : (sigOfCards cs).resultType = fixedArg .int64 .required (-1) := rfl
    have hne : ¬((sigOfCards cs).resultType.repeated = true ∨
        (sigOfCards cs).resultType.optional = true) := by
      rw [hres]
      decide
    have hargs : (sigOfCards cs).arguments = cardsToArgs cs := rfl
    have h1 : resultTemplateCheck (sigOfCards cs) = .ok () := by
      simp only [resultTemplateCheck, hres]
      rw [if_neg (by decide)]
    have h2 := repeatedBlockCheck_sigOfCards cs hbound
    have h3 : descriptorOffsetsCheck (cardsToArgs cs) (cardsToArgs cs) = .ok () :=
      descriptorOffsetsCheck_of_no_descriptor _ _ (cardsToArgs_no_descriptor cs)
    have hloop : checkArgumentsLoop [] (cardsToArgs cs) false false false =
        .ok () ↔
        (optionalSuffixInvariant cs = true ∧
          singleRepeatedRunInvariant cs = true) := by
      rw [checkArgumentsLoop_cards (cardsToArgs cs) [] false false false
        (cardsToArgs_valid cs) (cardsToArgs_no_void cs)
        (cardsToArgs_no_lambda cs)]
      rw [cardsToArgs_cardinalities, suffixFrom_spec, runFrom_spec]
    rw [functionSignatureIsValid_ok_iff _ hne, hargs]
    simp [h1, h2, h3, hloop]

/-- `cardinality_invariants_characterization` witnessed at the sequence
[REQUIRED, OPTIONAL] (no repeated block, both invariants hold, accepted). -/
theorem cardinality_invariants_characterization_witness :
    (firstRepeatedArgumentIndex
        (cardsToArgs [.required, .optional]) ≠ -1 →
      computeNumOptionalArguments (cardsToArgs [.required, .optional]) <
        computeNumRepeatedArguments (cardsToArgs [.required, .optional])) ∧
    (functionSignatureIsValid (sigOfCards [.required, .optional]) = .ok () ↔
      (optionalSuffixInvariant [.required, .optional] = true ∧
        singleRepeatedRunInvariant [.required, .optional] = true)) :=
  ⟨by decide,
    cardinality_invariants_characterization.2 [.required, .optional] (by decide)⟩

/-- `lambda_validation_contract` witnessed at the identity-shaped lambda
`LAMBDA(ANY_1)->ANY_1`. -/
theorem lambda_validation_contract_witness :
    functionArgumentTypeIsValid (lambdaFactory [simpleArg .any1 .required]
      (simpleArg .any1 .required)) = .ok () ↔
    ((∀ a ∈ [simpleArg .any1 .required], checkLambdaArgType a = .ok ()) ∧
      checkLambdaArgType (simpleArg .any1 .required) = .ok ()) :=
  lambda_validation_contract.1 [simpleArg .any1 .required]
    (simpleArg .any1 .required)

/-- `isTemplated_characterization` witnessed at an uninstantiated `ANY_1`
argument. -/
theorem isTemplated_characterization_witness :
    SignatureArgumentKind.any1 ≠ SignatureArgumentKind.lambdaKind ∧
    ((FunctionArgumentType.mk .any1 none (simpleOptions .required) (-1)
        .noLambda).isTemplated = true ↔
      (SignatureArgumentKind.any1 ≠ .fixed ∧
        ¬(SignatureArgumentKind.any1 = .relation ∧
          (simpleOptions .required).relationInputSchema.isSome) ∧
        SignatureArgumentKind.any1 ≠ .void)) :=
  ⟨by decide,
    isTemplated_characterization.1 .any1 none (simpleOptions .required) (-1)
      .noLambda (by decide)⟩

/-- `findIdx?` over a prefix of non-matching entries finds the first
matching head, with the running start index. -/
theorem findIdx?_prefix_none (p : FunctionArgumentType → Bool) :
    (pre : List FunctionArgumentType) →
    ∀ (rest : List FunctionArgumentType) (b : FunctionArgumentType),
      p b = true → (∀ x ∈ pre, p x = false) → ∀ start : Nat,
      List.findIdx? p (pre ++ b :: rest) start = some (start + pre.length)
  | [], rest, b, hb, _, start => by
    simp [List.findIdx?_cons, hb]
  | y :: tl, rest, b, hb, hpre, start => by
    have hy := hpre y (by simp)
    rw [List.cons_append, List.findIdx?_cons, if_neg (by simp [hy]),
      findIdx?_prefix_none p tl rest b hb
        (fun x hx => hpre x (by simp [hx])) (start + 1)]
    congr 1
    simp
    omega

/-- Length of `R` flattened copies of a block. -/
theorem length_flatten_replicate (R : Nat) (l : List FunctionArgumentType) :
    ((List.replicate R l).flatten).length = R * l.length := by
  induction R with
  | zero => simp
  | succ n ih =>
    simp [List.replicate_succ, ih, Nat.succ_mul]
    omega

/-- The expansion loop of `ComputeConcreteArgumentTypes` on an argument list
shaped as non-repeated prefix, repeated block, non-repeated suffix: the
`num_occurrences == 1` prefix entries, then the whole block repeated as many
times as the first block member's occurrence count, then the
`num_occurrences == 1` suffix entries. -/
theorem computeConcreteArgumentTypesList_structure
    (pre block post : List FunctionArgumentType)
    (b0 : FunctionArgumentType) (R : Nat)
    (hpre : ∀ x ∈ pre, x.repeated = false)
    (hpost : ∀ x ∈ post, x.repeated = false)
    (hblock : ∀ x ∈ b0 :: block, x.repeated = true)
    (hocc0 : b0.numOccurrences = (R : Int)) :
    computeConcreteArgumentTypesList (pre ++ (b0 :: block) ++ post) =
      pre.filter (fun a => a.numOccurrences = 1) ++
      (List.replicate R (b0 :: block)).flatten ++
      post.filter (fun a => a.numOccurrences = 1) := by
  have hb0 : b0.repeated = true := hblock b0 (by simp)
  have hfind : List.findIdx? FunctionArgumentType.repeated
      (pre ++ (b0 :: block) ++ post) 0 = some pre.length := by
    rw [List.append_assoc, List.cons_append]
    rw [show pre ++ b0 :: (block ++ post) = pre ++ b0 :: (block ++ post) from rfl]
    rw [findIdx?_prefix_none FunctionArgumentType.repeated pre (block ++ post)
      b0 hb0 hpre 0]
    simp
  have hrevsplit : (pre ++ (b0 :: block) ++ post).reverse =
      post.reverse ++ ((b0 :: block).reverse ++ pre.reverse) := by
    simp [List.reverse_append]
  rcases hrev : (b0 :: block).reverse with _ | ⟨c, cs⟩
  · exfalso
    have := congrArg List.length hrev
    simp at this
  have hc : c.repeated = true := by
    apply hblock
    have hmemrev : c ∈ (b0 :: block).reverse := by
      rw [hrev]
      simp
    exact List.mem_reverse.mp hmemrev
  have hrevfind : List.findIdx? FunctionArgumentType.repeated
      (pre ++ (b0 :: block) ++ post).reverse 0 = some post.length := by
    rw [hrevsplit, hrev, List.cons_append]
    rw [findIdx?_prefix_none FunctionArgumentType.repeated post.reverse
      (cs ++ pre.reverse) c hc
      (fun x hx => hpost x (by simpa using hx)) 0]
    simp
  have hlen : (pre ++ (b0 :: block) ++ post).length =
      pre.length + (block.length + 1) + post.length := by
    simp
    omega
  have htake : (pre ++ (b0 :: block) ++ post).take pre.length = pre := by
    rw [List.append_assoc]
    exact List.take_left' rfl
  have hdrop1 : (pre ++ (b0 :: block) ++ post).drop pre.length =
      (b0 :: block) ++ post := by
    rw [List.append_assoc]
    exact List.drop_left' rfl
  have hdrop2 : (pre ++ (b0 :: block) ++ post).drop
      (pre.length + (block.length + 1)) = post := by
    apply List.drop_left'
    simp
  have hgetD : (pre ++ (b0 :: block) ++ post).getD pre.length
      placeholderArgument = b0 := by
    rw [List.getD_append _ _ _ _ (by simp)]
    rw [List.getD_append_right _ _ _ _ (by simp)]
    simp
  simp only [computeConcreteArgumentTypesList, hfind, hrevfind,
    Option.getD_some]
  have e1 : (pre ++ (b0 :: block) ++ post).length - 1 - post.length + 1 -
      pre.length = block.length + 1 := by
    omega
  have e2 : (pre ++ (b0 :: block) ++ post).length - 1 - post.length + 1 =
      pre.length + (block.length + 1) := by
    omega
  rw [e1, e2, htake, hdrop1, hdrop2, hgetD, hocc0]
  rw [List.take_left' (by simp)]
  simp

/-- Claim C1: on a concrete signature whose argument list is a non-repeated
prefix, a repeated block (every member with `num_occurrences = R`), and a
non-repeated suffix, the stored concrete-argument expansion is: the
`num_occurrences == 1` prefix arguments, the whole block emitted `R` times in
declared order, then the `num_occurrences == 1` suffix arguments; its length
is the number of present non-repeated arguments plus `L * R` for a block
spanning `L` positions. -/
theorem concreteArguments_expansion (resultType : FunctionArgumentType)
    (cid : Int) (opts : FunctionSignatureOptions)
    (pre block post : List FunctionArgumentType)
    (b0 : FunctionArgumentType) (R : Nat)
    (hpre : ∀ x ∈ pre, x.repeated = false)
    (hpost : ∀ x ∈ post, x.repeated = false)
    (hblock : ∀ x ∈ b0 :: block, x.repeated = true)
    (hocc : ∀ x ∈ b0 :: block, x.numOccurrences = (R : Int))
    (hconc : (mkFunctionSignature resultType (pre ++ (b0 :: block) ++ post)
      cid opts).isConcrete = true) :
    (mkFunctionSignature resultType (pre ++ (b0 :: block) ++ post)
        cid opts).concreteArguments =
      pre.filter (fun a => a.numOccurrences = 1) ++
      (List.replicate R (b0 :: block)).flatten ++
      post.filter (fun a => a.numOccurrences = 1) ∧
    (mkFunctionSignature resultType (pre ++ (b0 :: block) ++ post)
        cid opts).concreteArguments.length =
      ((pre.filter (fun a => a.numOccurrences = 1)).length +
        (post.filter (fun a => a.numOccurrences = 1)).length) +
      (b0 :: block).length * R := by
  have hc2 : computeIsConcreteWith false (pre ++ (b0 :: block) ++ post)
      resultType = true := hconc
  have hCA : (mkFunctionSignature resultType (pre ++ (b0 :: block) ++ post)
      cid opts).concreteArguments =
      computeConcreteArgumentTypesList (pre ++ (b0 :: block) ++ post) := by
    show (if (computeIsConcreteWith false (pre ++ (b0 :: block) ++ post)
          resultType ||
        hasConcreteArgumentsList (pre ++ (b0 :: block) ++ post)) = true then
        computeConcreteArgumentTypesList (pre ++ (b0 :: block) ++ post)
      else []) =
      computeConcreteArgumentTypesList (pre ++ (b0 :: block) ++ post)
    rw [hc2]
    rfl
  rw [hCA, computeConcreteArgumentTypesList_structure pre block post b0 R
    hpre hpost hblock (hocc b0 (by simp))]
  refine ⟨rfl, ?_⟩
  simp [length_flatten_replicate]
  ring

/-- `concreteArguments_expansion` witnessed at the spec's end-to-end shape:
`f(a INT64 x1, REPEATED[BOOL b, STRING c] x2, OPTIONAL INT64 omitted)` with
two repetitions: the expansion is `[a, b, c, b, c]` and has length
1 + 0 + 2 * 2. -/
theorem concreteArguments_expansion_witness :
    (∀ x ∈ [fixedArg .int64 .required 1], x.repeated = false) ∧
    (∀ x ∈ [fixedArg .int64 .optional 0], x.repeated = false) ∧
    (∀ x ∈ fixedArg .boolKind .repeated 2 :: [fixedArg .stringKind .repeated 2],
      x.repeated = true) ∧
    (∀ x ∈ fixedArg .boolKind .repeated 2 :: [fixedArg .stringKind .repeated 2],
      x.numOccurrences = ((2 : Nat) : Int)) ∧
    (mkFunctionSignature (fixedArg .boolKind .required 1)
      ([fixedArg .int64 .required 1] ++
        (fixedArg .boolKind .repeated 2 :: [fixedArg .stringKind .repeated 2]) ++
        [fixedArg .int64 .optional 0]) 0 {}).isConcrete = true ∧
    ((mkFunctionSignature (fixedArg .boolKind .required 1)
        ([fixedArg .int64 .required 1] ++
          (fixedArg .boolKind .repeated 2 ::
            [fixedArg .stringKind .repeated 2]) ++
          [fixedArg .int64 .optional 0]) 0 {}).concreteArguments =
      [fixedArg .int64 .required 1].filter (fun a => a.numOccurrences = 1) ++
      (List.replicate 2 (fixedArg .boolKind .repeated 2 ::
        [fixedArg .stringKind .repeated 2])).flatten ++
      [fixedArg .int64 .optional 0].filter (fun a => a.numOccurrences = 1) ∧
      (mkFunctionSignature (fixedArg .boolKind .required 1)
        ([fixedArg .int64 .required 1] ++
          (fixedArg .boolKind .repeated 2 ::
            [fixedArg .stringKind .repeated 2]) ++
          [fixedArg .int64 .optional 0]) 0 {}).concreteArguments.length =
      (([fixedArg .int64 .required 1].filter
          (fun a => a.numOccurrences = 1)).length +
        ([fixedArg .int64 .optional 0].filter
          (fun a => a.numOccurrences = 1)).length) +
      (fixedArg .boolKind .repeated 2 ::
        [fixedArg .stringKind .repeated 2]).length * 2) :=
  ⟨by decide, by decide, by decide, by decide, by decide,
    concreteArguments_expansion (fixedArg .boolKind .required 1) 0 {}
      [fixedArg .int64 .required 1] [fixedArg .stringKind .repeated 2]
      [fixedArg .int64 .optional 0] (fixedArg .boolKind .repeated 2) 2
      (by decide) (by decide) (by decide) (by decide) (by decide)⟩

theorem applyIfSome_minValue (x : Option Int) (r : FunctionArgumentTypeOptions)
    (h : r.minValue = none) :
    applyIfSome x (fun v r => { r with minValue := some v }) r =
      { r with minValue := x } := by
  cases x with
  | none =>
    cases r
    simp_all [applyIfSome]
  | some v => rfl

theorem applyIfSome_maxValue (x : Option Int) (r : FunctionArgumentTypeOptions)
    (h : r.maxValue = none) :
    applyIfSome x (fun v r => { r with maxValue := some v }) r =
      { r with maxValue := x } := by
  cases x with
  | none =>
    cases r
    simp_all [applyIfSome]
  | some v => rfl

theorem applyIfSome_argumentName (x : Option String)
    (r : FunctionArgumentTypeOptions) (h : r.argumentName = none) :
    applyIfSome x (fun n r => { r with argumentName := some n }) r =
      { r with argumentName := x } := by
  cases x with
  | none =>
    cases r
    simp_all [applyIfSome]
  | some v => rfl

theorem applyIfSome_nameLoc (x : Option ParseLocationRange)
    (r : FunctionArgumentTypeOptions) (h : r.argumentNameParseLocation = none) :
    applyIfSome x (fun loc r => { r with argumentNameParseLocation := some loc })
      r = { r with argumentNameParseLocation := x } := by
  cases x with
  | none =>
    cases r
    simp_all [applyIfSome]
  | some v => rfl

theorem applyIfSome_typeLoc (x : Option ParseLocationRange)
    (r : FunctionArgumentTypeOptions) (h : r.argumentTypeParseLocation = none) :
    applyIfSome x (fun loc r => { r with argumentTypeParseLocation := some loc })
      r = { r with argumentTypeParseLocation := x } := by
  cases x with
  | none =>
    cases r
    simp_all [applyIfSome]
  | some v => rfl

theorem applyIfSome_tableOffset (x : Option Int)
    (r : FunctionArgumentTypeOptions)
    (h : r.descriptorResolutionTableOffset = none) :
    applyIfSome x
      (fun off r => { r with descriptorResolutionTableOffset := some off }) r =
      { r with descriptorResolutionTableOffset := x } := by
  cases x with
  | none =>
    cases r
    simp_all [applyIfSome]
  | some v => rfl

theorem applyIfSome_procMode (pm : ProcedureArgumentMode)
    (r : FunctionArgumentTypeOptions)
    (h : r.procedureArgumentMode = .notSet) :
    applyIfSome (if pm ≠ ProcedureArgumentMode.notSet then some pm else none)
      (fun m r => { r with procedureArgumentMode := m }) r =
      { r with procedureArgumentMode := pm } := by
  by_cases hpm : pm = ProcedureArgumentMode.notSet
  · subst hpm
    rw [if_neg (by simp)]
    cases r
    simp_all [applyIfSome]
  · rw [if_pos hpm]
    rfl

theorem applyIfSome_mandatory (b : Bool) (r : FunctionArgumentTypeOptions)
    (h : r.argumentNameIsMandatory = false) :
    applyIfSome (if b then some true else none)
      (fun v r => { r with argumentNameIsMandatory := v }) r =
      { r with argumentNameIsMandatory := b } := by
  cases b
  · cases r
    simp_all [applyIfSome]
  · rfl

theorem applyIfSome_extra (b : Bool) (r : FunctionArgumentTypeOptions) :
    applyIfSome (some b)
      (fun v r => { r with extraRelationInputColumnsAllowed := v }) r =
      { r with extraRelationInputColumnsAllowed := b } := rfl

/-- Per-options safety conditions under which one options bag survives the
wire round trip: a relation input schema may not coexist with non-default
values of the fields the deserializer's schema overwrite resets, and a
default value requires a kind that admits defaults plus, for fixed-type
arguments, a default of exactly the argument's type. -/
def optionsRoundTripSafe (o : FunctionArgumentTypeOptions)
    (kind : SignatureArgumentKind) (ty : Option SqlType) : Bool :=
  (match o.relationInputSchema with
   | some _ =>
     o.cardinality = ArgumentCardinality.required && o.mustBeConstant = false &&
     o.mustBeNonNull = false && o.isNotAggregate = false &&
     o.mustSupportEquality = false && o.mustSupportOrdering = false &&
     o.procedureArgumentMode = ProcedureArgumentMode.notSet &&
     o.minValue = none && o.maxValue = none
   | none => true) &&
  (match o.defaultValue with
   | some v =>
     canHaveDefaultValue kind &&
     (match ty with
      | some t => v.vtype = t
      | none => true)
   | none => true)

/-- Round trip of one options bag through
`Serialize`/`Deserialize` under `optionsRoundTripSafe`. -/
theorem optionsRoundTrip (o : FunctionArgumentTypeOptions)
    (kind : SignatureArgumentKind) (ty : Option SqlType)
    (h : optionsRoundTripSafe o kind ty = true) :
    functionArgumentTypeOptionsDeserialize
      (functionArgumentTypeOptionsSerialize ty o) kind ty = .ok o := by
  obtain ⟨c, mbc, mbn, na, mse, mso, pm, mn, mx, ex, ris, an, anm, anl, atl,
    dro, dv⟩ := o
  rcases ris with _ | rel
  · -- no relation input schema: the base transfer restores every field
    have hbase : optionsDeserializeBase (functionArgumentTypeOptionsSerialize ty
        ⟨c, mbc, mbn, na, mse, mso, pm, mn, mx, ex, none, an, anm, anl, atl,
          dro, dv⟩) =
        ⟨c, mbc, mbn, na, mse, mso, pm, mn, mx, ex, none, an, anm, anl, atl,
          dro, none⟩ := by
      simp only [functionArgumentTypeOptionsSerialize, optionsDeserializeBase,
        applyIfSome_procMode, applyIfSome_minValue, applyIfSome_maxValue,
        applyIfSome_extra, applyIfSome_argumentName, applyIfSome_mandatory,
        applyIfSome_nameLoc, applyIfSome_typeLoc, applyIfSome_tableOffset]
    rcases dv with _ | v
    · simp only [functionArgumentTypeOptionsDeserialize, hbase]
      simp [functionArgumentTypeOptionsSerialize]
    · obtain ⟨vt, vv, vp⟩ := v
      simp only [optionsRoundTripSafe, Bool.and_eq_true, decide_eq_true_eq]
        at h
      simp only [functionArgumentTypeOptionsDeserialize, hbase]
      simp only [functionArgumentTypeOptionsSerialize, Option.map_some',
        valueSerialize]
      rw [if_neg (by simp [h.2.1])]
      rcases ty with _ | t
      · simp [valueSerialize, valueDeserialize]
      · have hvt : vt = t := by simpa using h.2.2
        subst hvt
        simp [valueSerialize, valueDeserialize]
  · -- a relation input schema: the overwrite resets the early fields, which
    -- the safety hypothesis pins at their defaults
    simp only [optionsRoundTripSafe, Bool.and_eq_true, decide_eq_true_eq] at h
    obtain ⟨hall, hdv⟩ := h
    obtain ⟨⟨⟨⟨⟨⟨⟨⟨hc, hmbc⟩, hmbn⟩, hna⟩, hmse⟩, hmso⟩, hpm⟩, hmn⟩, hmx⟩ := hall
    subst hc hmbc hmbn hna hmse hmso hpm hmn hmx
    have hbase : optionsDeserializeBase (functionArgumentTypeOptionsSerialize ty
        ⟨.required, false, false, false, false, false, .notSet, none, none, ex,
          some rel, an, anm, anl, atl, dro, dv⟩) =
        ⟨.required, false, false, false, false, false, .notSet, none, none, ex,
          some rel, an, anm, anl, atl, dro, none⟩ := by
      simp only [functionArgumentTypeOptionsSerialize, optionsDeserializeBase,
        applyIfSome_procMode, applyIfSome_minValue, applyIfSome_maxValue,
        applyIfSome_extra, applyIfSome_argumentName, applyIfSome_mandatory,
        applyIfSome_nameLoc, applyIfSome_typeLoc, applyIfSome_tableOffset]
    rcases dv with _ | v
    · simp only [functionArgumentTypeOptionsDeserialize, hbase]
      simp [functionArgumentTypeOptionsSerialize]
    · obtain ⟨vt, vv, vp⟩ := v
      simp only [Bool.and_eq_true, decide_eq_true_eq] at hdv
      simp only [functionArgumentTypeOptionsDeserialize, hbase]
      simp only [functionArgumentTypeOptionsSerialize, Option.map_some',
        valueSerialize]
      rw [if_neg (by simp [hdv.1])]
      rcases ty with _ | t
      · simp [valueSerialize, valueDeserialize]
      · have hvt : vt = t := by simpa using hdv.2
        subst hvt
        simp [valueSerialize, valueDeserialize]

/-- Deserializing options from a proto with no default value always succeeds
(every failure path of the options deserializer sits inside the
default-value handling). -/
theorem optionsDeserialize_no_default (p : FunctionArgumentTypeOptionsProto)
    (kind : SignatureArgumentKind) (ty : Option SqlType)
    (h : p.defaultValue = none) :
    functionArgumentTypeOptionsDeserialize p kind ty =
      .ok (optionsDeserializeBase p) := by
  simp [functionArgumentTypeOptionsDeserialize, h]

/- Per-node conditions under which an argument type survives the wire round
trip: its options are round-trip safe, a FIXED argument carries a type and
other non-lambda arguments none (the C++ constructor invariant), a lambda
node is exactly a `Lambda`-factory value (simple REQUIRED options, one
occurrence, type equal to the body's type), and the same holds recursively
inside lambdas. -/
mutual

def argRoundTripSafe : FunctionArgumentType → Bool
  | .mk kind ty opts numOcc lam =>
    optionsRoundTripSafe opts kind ty &&
    (match lam with
     | .noLambda =>
       (if kind = SignatureArgumentKind.fixed then ty.isSome
        else ty = none) &&
       kind ≠ SignatureArgumentKind.lambdaKind
     | .someLambda l =>
       kind = SignatureArgumentKind.lambdaKind &&
       numOcc = 1 &&
       opts = simpleOptions ArgumentCardinality.required &&
       ty = (ArgumentTypeLambda.bodyType l).ty &&
       lambdaRoundTripSafe l)

def lambdaRoundTripSafe : ArgumentTypeLambda → Bool
  | .mk args body => fatListRoundTripSafe args && argRoundTripSafe body

def fatListRoundTripSafe : FATList → Bool
  | .nil => true
  | .cons a tl => argRoundTripSafe a && fatListRoundTripSafe tl

end

/- Round trip of argument descriptors through the wire form, by mutual
structural induction over the argument-type tree. -/
mutual

theorem argRoundTrip : (a : FunctionArgumentType) →
    argRoundTripSafe a = true →
    functionArgumentTypeDeserialize (functionArgumentTypeSerialize a) = .ok a
  | .mk kind ty opts numOcc lam, h => by
    cases lam with
    | noLambda =>
      rw [argRoundTripSafe.eq_1] at h
      obtain ⟨hopts, hty, hkl⟩ := by
        simpa only [Bool.and_eq_true, decide_eq_true_eq] using h
      by_cases hk : kind = SignatureArgumentKind.fixed
      · subst hk
        rw [if_pos rfl] at hty
        rcases ty with _ | t
        · cases hty
        · show (match functionArgumentTypeOptionsDeserialize
              (functionArgumentTypeOptionsSerialize (some t) opts)
              SignatureArgumentKind.fixed (some t) with
            | .error e => Except.error e
            | .ok opts2 =>
              Except.ok (FunctionArgumentType.mk SignatureArgumentKind.fixed
                (some t) opts2 numOcc LambdaOption.noLambda)) =
            Except.ok (FunctionArgumentType.mk SignatureArgumentKind.fixed
              (some t) opts numOcc LambdaOption.noLambda)
          rw [optionsRoundTrip opts SignatureArgumentKind.fixed (some t) hopts]
      · rw [if_neg hk] at hty
        have hty2 : ty = none := of_decide_eq_true hty
        subst hty2
        rw [functionArgumentTypeSerialize.eq_1, ite_self,
          functionArgumentTypeDeserialize.eq_4, if_neg hk]
        show (match functionArgumentTypeOptionsDeserialize
            (functionArgumentTypeOptionsSerialize none opts) kind none with
          | .error e => Except.error e
          | .ok opts2 =>
            if kind = SignatureArgumentKind.lambdaKind then
              Except.error DeserializeError.fixedTypeMissing
            else
              Except.ok (FunctionArgumentType.mk kind none opts2 numOcc
                LambdaOption.noLambda)) =
          Except.ok (FunctionArgumentType.mk kind none opts numOcc
            LambdaOption.noLambda)
        rw [optionsRoundTrip opts kind none hopts]
        show (if kind = SignatureArgumentKind.lambdaKind then
            Except.error DeserializeError.fixedTypeMissing
          else
            Except.ok (FunctionArgumentType.mk kind none opts numOcc
              LambdaOption.noLambda)) =
          Except.ok (FunctionArgumentType.mk kind none opts numOcc
            LambdaOption.noLambda)
        rw [if_neg hkl]
    | someLambda l =>
      rw [argRoundTripSafe.eq_2] at h
      obtain ⟨hopts, ⟨⟨⟨hkind, hocc⟩, hoptseq⟩, htyeq⟩, hsafe⟩ := by
        simpa only [Bool.and_eq_true, decide_eq_true_eq] using h
      subst hkind hocc hoptseq htyeq
      cases l with
      | mk args body =>
        show (match functionArgumentTypeOptionsDeserialize
            (functionArgumentTypeOptionsSerialize
              (ArgumentTypeLambda.mk args body).bodyType.ty
              (simpleOptions ArgumentCardinality.required))
            SignatureArgumentKind.lambdaKind none with
          | .error e => Except.error e
          | .ok _ =>
            (match argumentTypeLambdaProtoDeserialize
                (argumentTypeLambdaSerialize (ArgumentTypeLambda.mk args body)) with
             | .error e => Except.error e
             | .ok (nargs, nbody) => Except.ok (lambdaFactoryList nargs nbody))) =
          Except.ok (FunctionArgumentType.mk SignatureArgumentKind.lambdaKind
            (ArgumentTypeLambda.mk args body).bodyType.ty
            (simpleOptions ArgumentCardinality.required) 1
            (LambdaOption.someLambda (ArgumentTypeLambda.mk args body)))
        rw [optionsDeserialize_no_default _ _ _ rfl]
        rw [lambdaRoundTrip (ArgumentTypeLambda.mk args body) hsafe]
        rfl

theorem lambdaRoundTrip : (l : ArgumentTypeLambda) →
    lambdaRoundTripSafe l = true →
    argumentTypeLambdaProtoDeserialize (argumentTypeLambdaSerialize l) =
      .ok (l.argumentTypes, l.bodyType)
  | .mk args body, h => by
    simp only [lambdaRoundTripSafe, Bool.and_eq_true] at h
    simp only [argumentTypeLambdaSerialize, argumentTypeLambdaProtoDeserialize]
    rw [fatListRoundTrip args h.1, argRoundTrip body h.2]
    rfl

theorem fatListRoundTrip : (xs : FATList) → fatListRoundTripSafe xs = true →
    fatProtoListDeserialize (fatListSerialize xs) = .ok xs
  | .nil, _ => rfl
  | .cons a tl, h => by
    simp only [fatListRoundTripSafe, Bool.and_eq_true] at h
    simp only [fatListSerialize, fatProtoListDeserialize]
    rw [argRoundTrip a h.1, fatListRoundTrip tl h.2]

end

/-- Deserializing the serialized argument list restores it, element by
element. -/
theorem mapMDeserialize (args : List FunctionArgumentType)
    (h : ∀ x ∈ args, argRoundTripSafe x = true) :
    (args.map functionArgumentTypeSerialize).mapM
      functionArgumentTypeDeserialize = .ok args := by
  induction args with
  | nil => rfl
  | cons a tl ih =>
    simp only [List.map_cons, List.mapM_cons]
    rw [argRoundTrip a (h a (by simp)), ih (fun x hx => h x (by simp [hx]))]
    rfl

/-- Signature options survive the wire round trip. -/
theorem sigOptionsRoundTrip (o : FunctionSignatureOptions) :
    functionSignatureOptionsDeserialize (functionSignatureOptionsSerialize o) =
      o := by
  obtain ⟨d, w, f, al⟩ := o
  cases al <;> rfl

/-- Claim C5, amended: `Deserialize(Serialize(S)) = S` for every valid
constructor-built signature all of whose argument descriptors and result
descriptor are round-trip safe: built respecting the C++ constructor
invariants (a FIXED argument carries its type, other non-lambda arguments
none, lambda nodes come from the `Lambda` factory), any options bag carrying
a relation input schema keeps at their defaults all nine fields the
deserializer's schema overwrite resets — cardinality, must_be_constant,
must_be_non_null, is_not_aggregate, must_support_equality,
must_support_ordering, procedure_argument_mode, min_value, max_value — and
any default value obeys the rules `IsValid` enforces for arguments (which
`IsValid` never checks on the result type). -/
theorem signature_roundTrip (resultType : FunctionArgumentType)
    (args : List FunctionArgumentType) (cid : Int)
    (opts : FunctionSignatureOptions)
    (_hvalid : functionSignatureIsValid
      (mkFunctionSignature resultType args cid opts) = .ok ())
    (hargs : ∀ x ∈ args, argRoundTripSafe x = true)
    (hres : argRoundTripSafe resultType = true) :
    functionSignatureDeserialize (functionSignatureSerialize
      (mkFunctionSignature resultType args cid opts)) =
      .ok (mkFunctionSignature resultType args cid opts) := by
  have h1 : (mkFunctionSignature resultType args cid opts).arguments = args := rfl
  have h2 : (mkFunctionSignature resultType args cid opts).resultType =
    resultType := rfl
  have h3 : (mkFunctionSignature resultType args cid opts).options = opts := rfl
  have h4 : (mkFunctionSignature resultType args cid opts).contextId = cid := rfl
  simp only [functionSignatureSerialize, functionSignatureDeserialize, h1, h2,
    h3, h4]
  rw [mapMDeserialize args hargs, argRoundTrip resultType hres]
  rw [sigOptionsRoundTrip opts]

/-- Claim C5, counterexample: a valid signature with an OPTIONAL
Relation-kind argument carrying a relation input schema does not survive the
round trip — the deserializer's schema overwrite (lines 165-172) resets the
argument's cardinality to REQUIRED. -/
theorem signature_roundTrip_counterexample :
    functionSignatureIsValid (mkFunctionSignature
      (fixedArg .int64 .required (-1))
      [FunctionArgumentType.mk .relation none
        { cardinality := .optional,
          relationInputSchema :=
            some { columns := [{ name := "c", ctype := .int64 }] } }
        (-1) .noLambda] 7 {}) = .ok () ∧
    functionSignatureDeserialize (functionSignatureSerialize
      (mkFunctionSignature (fixedArg .int64 .required (-1))
        [FunctionArgumentType.mk .relation none
          { cardinality := .optional,
            relationInputSchema :=
              some { columns := [{ name := "c", ctype := .int64 }] } }
          (-1) .noLambda] 7 {})) ≠
      .ok (mkFunctionSignature (fixedArg .int64 .required (-1))
        [FunctionArgumentType.mk .relation none
          { cardinality := .optional,
            relationInputSchema :=
              some { columns := [{ name := "c", ctype := .int64 }] } }
          (-1) .noLambda] 7 {}) := by
  refine ⟨rfl, ?_⟩
  intro hcontra
  have h2 := congrArg (fun r =>
    match r with
    | Except.ok s =>
      (match s.arguments with
       | a :: _ => a.options.cardinality
       | [] => ArgumentCardinality.required)
    | Except.error _ => ArgumentCardinality.required) hcontra
  have h3 : ArgumentCardinality.required = ArgumentCardinality.optional := h2
  cases h3

/-- `signature_roundTrip` witnessed at a small concrete signature with a
fixed argument and a factory-built lambda argument. -/
theorem signature_roundTrip_witness :
    functionSignatureIsValid (mkFunctionSignature (fixedArg .int64 .required (-1))
      [simpleArg .any1 .required,
        lambdaFactory [simpleArg .any1 .required] (simpleArg .any1 .required)]
      3 {}) = .ok () ∧
    (∀ x ∈ [simpleArg .any1 .required,
        lambdaFactory [simpleArg .any1 .required] (simpleArg .any1 .required)],
      argRoundTripSafe x = true) ∧
    argRoundTripSafe (fixedArg .int64 .required (-1)) = true ∧
    functionSignatureDeserialize (functionSignatureSerialize
      (mkFunctionSignature (fixedArg .int64 .required (-1))
        [simpleArg .any1 .required,
          lambdaFactory [simpleArg .any1 .required] (simpleArg .any1 .required)]
        3 {})) =
      .ok (mkFunctionSignature (fixedArg .int64 .required (-1))
        [simpleArg .any1 .required,
          lambdaFactory [simpleArg .any1 .required] (simpleArg .any1 .required)]
        3 {}) :=
  ⟨rfl, by decide, by decide,
    signature_roundTrip (fixedArg .int64 .required (-1))
      [simpleArg .any1 .required,
        lambdaFactory [simpleArg .any1 .required] (simpleArg .any1 .required)]
      3 {} rfl (by decide) (by decide)⟩
